import Mathlib

/-!
Verification of the Kong demo generator's configuration core.

This file gives a shallow embedding, in Lean 4, of the four core components
of the repository:

* `config_manager.py` (`ConfigurationManager`): the configuration model with
  its `add_*` mutators, the `validate` repair pass, the declarative export and
  the serialization round trip;
* `kong_admin.py` (`KongAdminClient.deploy_configuration` and the `create_*`
  helpers): the remote deployment adapter, modelled against an abstract
  response schedule (`Nat → Response`, giving the response to the i-th issued
  HTTP call) and producing an explicit trace of issued calls;
* `kong_config_from_spec_generator.py` (`KongConfigFromSpecGenerator`): the
  specification-to-configuration transform;
* `api_specification_generator.py`
  (`ApiSpecificationGenerator._extract_json_from_response` and the template
  fallbacks): specification extraction from free-form text.

Modelling conventions:

* Python's `random.randint` is modelled by an explicit stream of random
  draws `Rng := Nat → Nat`; `randint 1000 9999` consumes the head of the
  stream and shifts it.
* JSON documents are modelled by the inductive `JsonVal`.  The textual
  layer of `json.dumps`/`json.loads` (resp. `yaml.dump`/`yaml.safe_load`)
  between a `ConfigurationManager.config` dict and its serialized string is
  modelled as the identity on `JsonVal` documents; `json.loads` on free-form
  strings (used by specification extraction) is modelled by an executable
  recursive-descent parser `json_loads` covering the JSON subset actually
  exercised by this code base (numbers without exponents, no surrogate
  pairs, no NaN/Infinity literals).
* Python strings are Lean `String`s; `str.lower()` is modelled on ASCII.
-/

/-! ## Python string primitives -/

/-- One character of Python's `str.lower()` (ASCII range, which is all this
code base produces). -/
def pyLowerChar (c : Char) : Char :=
  if 65 ≤ c.toNat ∧ c.toNat ≤ 90 then Char.ofNat (c.toNat + 32) else c

/-- `s.lower()` on a Lean string, via its character list. -/
def pyLower (s : String) : String := ⟨s.data.map pyLowerChar⟩

/-- One character of `str.replace('-', '_')` (the pattern is a single
character, so the replacement is character-wise). -/
def dashToUnderscoreChar (c : Char) : Char := if c = '-' then '_' else c

/-- `s.replace('-', '_')`. -/
def dashToUnderscore (s : String) : String := ⟨s.data.map dashToUnderscoreChar⟩

/-- The service/route name normalization used throughout
`config_manager.py`: `name.replace('-', '_').lower()`. -/
def normalizeName (s : String) : String := pyLower (dashToUnderscore s)

/-- Decimal digit characters, used to model Python's formatting of an `int`
inside an f-string. -/
def digitOf : Nat → Char
  | 0 => '0' | 1 => '1' | 2 => '2' | 3 => '3' | 4 => '4'
  | 5 => '5' | 6 => '6' | 7 => '7' | 8 => '8' | 9 => '9'
  | _ => '*'

/-- Decimal digit list of a natural number (fuel-based; `fuel` bounds the
number of digits and `n + 1` always suffices). -/
def natDigitsAux : Nat → Nat → List Char
  | 0, _ => []
  | fuel + 1, n =>
    if n < 10 then [digitOf n]
    else natDigitsAux fuel (n / 10) ++ [digitOf (n % 10)]

/-- Decimal rendering of a natural number, as produced by a Python f-string. -/
def natToString (n : Nat) : String := ⟨natDigitsAux (n + 1) n⟩

/-! ## The random stream -/

/-- A stream of raw random draws.  `rng i` is the i-th draw. -/
def Rng : Type := Nat → Nat

/-- Drop the first draw from the stream. -/
def rngShift (rng : Rng) : Rng := fun n => rng (n + 1)

/-- `random.randint(1000, 9999)`: the next draw mapped into the inclusive
range, together with the rest of the stream. -/
def randint1000to9999 (rng : Rng) : Nat × Rng :=
  (1000 + rng 0 % 9000, rngShift rng)

/-! ## JSON documents -/

/-- JSON values.  `num m e` denotes the decimal number `m / 10 ^ e`
(so integers are `num m 0`); object fields keep their insertion order. -/
inductive JsonVal where
  | null
  | bool (b : Bool)
  | num (mantissa : Int) (frac10 : Nat)
  | str (s : String)
  | arr (items : List JsonVal)
  | obj (fields : List (String × JsonVal))

/-- Python truthiness of a JSON value (`if config:` on an optional dict). -/
def jsonTruthy : JsonVal → Bool
  | .null => false
  | .bool b => b
  | .num m _ => m ≠ 0
  | .str s => s ≠ ""
  | .arr xs => !xs.isEmpty
  | .obj fs => !fs.isEmpty

/-- First value bound to a key in an ordered field list (Python dict lookup;
keys are unique in every document this code produces). -/
def lookupField : List (String × JsonVal) → String → Option JsonVal
  | [], _ => none
  | (k, v) :: rest, key => if k = key then some v else lookupField rest key

/-- `d[key]` / `key in d` on a JSON document. -/
def jsonLookup : JsonVal → String → Option JsonVal
  | .obj fs, key => lookupField fs key
  | _, _ => none

/-! ## The configuration model (`config_manager.py`) -/

/-- An entry of `config["services"]`: `{"name": ..., "url": ...}`. -/
structure Service where
  name : String
  url : String
deriving DecidableEq

/-- An entry of `config["routes"]`:
`{"service_name": ..., "paths": ..., "name": ...}`. -/
structure Route where
  service_name : String
  paths : List String
  name : String
deriving DecidableEq

/-- An entry of `config["plugins"]`: `{"name": ...}` with an optional
`"config"` value. -/
structure Plugin where
  name : String
  config : Option JsonVal

/-- An entry of `config["consumers"]`: `{"username": ...}` with an optional
`"auth_type"` value. -/
structure Consumer where
  username : String
  auth_type : Option String
deriving DecidableEq

/-- The `ConfigurationManager.config` dict.  `auth_plugin` is the
convenience key set by `add_plugin` for auth plugins; `termination_note` is
the advisory key written by the `request-termination` feature path. -/
structure Config where
  services : List Service
  routes : List Route
  plugins : List Plugin
  consumers : List Consumer
  auth_plugin : Option Plugin
  termination_note : Option String

/-- The configuration produced by `ConfigurationManager.__init__`. -/
def emptyConfig : Config := ⟨[], [], [], [], none, none⟩

/-- `ConfigurationManager.add_service(name, url)`.  Returns the final name,
the updated configuration, and the rest of the random stream. -/
def add_service (cfg : Config) (name : String) (url : Option String) (rng : Rng) :
    String × Config × Rng :=
  let nr : String × Rng :=
    if name = "" then
      let d := (randint1000to9999 rng).1
      ("default_service_" ++ natToString d, (randint1000to9999 rng).2)
    else (name, rng)
  let name := normalizeName nr.1
  let url :=
    match url with
    | some u => if u = "" then "http://" ++ name ++ ":8080" else u
    | none => "http://" ++ name ++ ":8080"
  (name, { cfg with services := cfg.services ++ [⟨name, url⟩] }, nr.2)

/-- `ConfigurationManager.add_route(service_name, paths, name)`.  Returns the
final route name, the updated configuration and the rest of the stream. -/
def add_route (cfg : Config) (service_name : String) (paths : List String)
    (name : Option String) (rng : Rng) : String × Config × Rng :=
  let snr : String × Rng :=
    if service_name = "" then
      match cfg.services with
      | s :: _ => (s.name, rng)
      | [] =>
        let d := (randint1000to9999 rng).1
        ("default_service_" ++ natToString d, (randint1000to9999 rng).2)
    else (service_name, rng)
  let service_name := normalizeName snr.1
  let name :=
    match name with
    | some n =>
      if n = "" then
        service_name ++ "-route-" ++
          natToString ((cfg.routes.filter (fun r => r.service_name = service_name)).length + 1)
      else n
    | none =>
      service_name ++ "-route-" ++
        natToString ((cfg.routes.filter (fun r => r.service_name = service_name)).length + 1)
  (name, { cfg with routes := cfg.routes ++ [⟨service_name, paths, name⟩] }, snr.2)

/-- `ConfigurationManager.add_plugin(name, config)`.  `config` is stored only
when truthy (an empty dict is dropped, like in Python); auth plugin names
additionally set the `auth_plugin` convenience key. -/
def add_plugin (cfg : Config) (name : String) (config : Option JsonVal) :
    Plugin × Config :=
  let plugin : Plugin :=
    match config with
    | some c => if jsonTruthy c then ⟨name, some c⟩ else ⟨name, none⟩
    | none => ⟨name, none⟩
  let cfg := { cfg with plugins := cfg.plugins ++ [plugin] }
  if name = "key-auth" ∨ name = "jwt" ∨ name = "oauth2" ∨ name = "basic-auth" then
    (plugin, { cfg with auth_plugin := some plugin })
  else (plugin, cfg)

/-- `ConfigurationManager.add_consumer(username, auth_type)`.  `auth_type` is
stored only when truthy. -/
def add_consumer (cfg : Config) (username : String) (auth_type : Option String) :
    Consumer × Config :=
  let consumer : Consumer :=
    match auth_type with
    | some a => if a = "" then ⟨username, none⟩ else ⟨username, some a⟩
    | none => ⟨username, none⟩
  (consumer, { cfg with consumers := cfg.consumers ++ [consumer] })

/-- The first loop of `ConfigurationManager.validate`: replace empty service
names by synthesized defaults and normalize every service name. -/
def validateServices : List Service → Rng → List Service × Rng
  | [], rng => ([], rng)
  | s :: rest, rng =>
    let nr : String × Rng :=
      if s.name = "" then
        let d := (randint1000to9999 rng).1
        ("default_service_" ++ natToString d, (randint1000to9999 rng).2)
      else (s.name, rng)
    let p := validateServices rest nr.2
    (⟨normalizeName nr.1, s.url⟩ :: p.1, p.2)

/-- The second loop of `ConfigurationManager.validate`: repair route service
references against the (stale) list `names` of service names computed before
the loop, synthesizing and appending a default service when `names` is
empty, then normalize each reference. -/
def validateRoutes (names : List String) :
    List Route → Config → Rng → List Route × Config × Rng
  | [], cfg, rng => ([], cfg, rng)
  | r :: rest, cfg, rng =>
    if r.service_name = "" ∨ ¬ r.service_name ∈ names then
      match names with
      | n₀ :: _ =>
        let p := validateRoutes names rest cfg rng
        ({ r with service_name := normalizeName n₀ } :: p.1, p.2.1, p.2.2)
      | [] =>
        let d := (randint1000to9999 rng).1
        let rng1 := (randint1000to9999 rng).2
        let dn := "default_service_" ++ natToString d
        let ac := add_service cfg dn none rng1
        let p := validateRoutes names rest ac.2.1 ac.2.2
        ({ r with service_name := normalizeName dn } :: p.1, p.2.1, p.2.2)
    else
      let p := validateRoutes names rest cfg rng
      ({ r with service_name := normalizeName r.service_name } :: p.1, p.2.1, p.2.2)

/-- `ConfigurationManager.validate()`: the in-place repair pass.  It never
fails; it returns the repaired configuration and the rest of the stream. -/
def validate (cfg : Config) (rng : Rng) : Config × Rng :=
  let sp := validateServices cfg.services rng
  let cfg1 := { cfg with services := sp.1 }
  let names := sp.1.map Service.name
  let rp := validateRoutes names cfg1.routes cfg1 sp.2
  ({ rp.2.1 with routes := rp.1 }, rp.2.2)

/-! ## Serialization (`to_json` / `to_yaml` / `to_declarative_config`)

`json.dumps` and `yaml.dump` print the `config` dict; `json.loads` and
`yaml.safe_load` parse it back.  Both pairs are mutually inverse between
strings and documents, so the persisted form is modelled as the `JsonVal`
document itself; what remains of `to_json`/`load_from_json` (and the yaml
pair) is the dict structure and the unconditional `validate()` on load. -/

/-- Document form of a service dict. -/
def serviceToJson (s : Service) : JsonVal :=
  .obj [("name", .str s.name), ("url", .str s.url)]

/-- Document form of a route dict (insertion order of `add_route`). -/
def routeToJson (r : Route) : JsonVal :=
  .obj [("service_name", .str r.service_name),
        ("paths", .arr (r.paths.map .str)),
        ("name", .str r.name)]

/-- Document form of a plugin dict. -/
def pluginToJson (p : Plugin) : JsonVal :=
  .obj (("name", .str p.name) ::
    (match p.config with
     | some c => [("config", c)]
     | none => []))

/-- Document form of a consumer dict. -/
def consumerToJson (c : Consumer) : JsonVal :=
  .obj (("username", .str c.username) ::
    (match c.auth_type with
     | some a => [("auth_type", .str a)]
     | none => []))

/-- The `config` dict as a document (shared by `to_json` and `to_yaml`). -/
def configDocument (cfg : Config) : JsonVal :=
  .obj ([("services", .arr (cfg.services.map serviceToJson)),
         ("routes", .arr (cfg.routes.map routeToJson)),
         ("plugins", .arr (cfg.plugins.map pluginToJson)),
         ("consumers", .arr (cfg.consumers.map consumerToJson))]
    ++ (match cfg.auth_plugin with
        | some p => [("auth_plugin", pluginToJson p)]
        | none => [])
    ++ (match cfg.termination_note with
        | some t => [("termination_note", .str t)]
        | none => []))

/-- `ConfigurationManager.to_json()` (the document under `json.dumps`). -/
def to_json (cfg : Config) : JsonVal := configDocument cfg

/-- `ConfigurationManager.to_yaml()` (the document under `yaml.dump`). -/
def to_yaml (cfg : Config) : JsonVal := configDocument cfg

/-- Decode a service dict. -/
def serviceOfJson : JsonVal → Option Service
  | .obj [("name", .str n), ("url", .str u)] => some ⟨n, u⟩
  | _ => none

/-- Decode a list of JSON strings. -/
def strListOfJson : List JsonVal → Option (List String)
  | [] => some []
  | .str s :: rest => (strListOfJson rest).map (s :: ·)
  | _ => none

/-- Decode a route dict. -/
def routeOfJson : JsonVal → Option Route
  | .obj [("service_name", .str sn), ("paths", .arr ps), ("name", .str n)] =>
    (strListOfJson ps).map (fun paths => ⟨sn, paths, n⟩)
  | _ => none

/-- Decode a plugin dict. -/
def pluginOfJson : JsonVal → Option Plugin
  | .obj [("name", .str n)] => some ⟨n, none⟩
  | .obj [("name", .str n), ("config", c)] => some ⟨n, some c⟩
  | _ => none

/-- Decode a consumer dict. -/
def consumerOfJson : JsonVal → Option Consumer
  | .obj [("username", .str u)] => some ⟨u, none⟩
  | .obj [("username", .str u), ("auth_type", .str a)] => some ⟨u, some a⟩
  | _ => none

/-- Decode every element of a list, failing if any element fails. -/
def decodeList (f : JsonVal → Option α) : List JsonVal → Option (List α)
  | [] => some []
  | x :: rest =>
    match f x with
    | some a => (decodeList f rest).map (a :: ·)
    | none => none

/-- Decode a whole `config` document (the shape produced by
`configDocument`; bulk load replaces `self.config` with the parsed dict). -/
def configOfJson (j : JsonVal) : Option Config :=
  match jsonLookup j "services", jsonLookup j "routes",
        jsonLookup j "plugins", jsonLookup j "consumers" with
  | some (.arr ss), some (.arr rs), some (.arr ps), some (.arr cs) =>
    match decodeList serviceOfJson ss, decodeList routeOfJson rs,
          decodeList pluginOfJson ps, decodeList consumerOfJson cs with
    | some services, some routes, some plugins, some consumers =>
      some ⟨services, routes, plugins, consumers,
            (jsonLookup j "auth_plugin").bind pluginOfJson,
            match jsonLookup j "termination_note" with
            | some (.str t) => some t
            | _ => none⟩
    | _, _, _, _ => none
  | _, _, _, _ => none

/-- `ConfigurationManager.load_from_json`: replace the model with the parsed
document, then `validate()` unconditionally. -/
def load_from_json (doc : JsonVal) (rng : Rng) : Option (Config × Rng) :=
  (configOfJson doc).map (fun c => validate c rng)

/-- `ConfigurationManager.load_from_yaml`: same document-level behavior. -/
def load_from_yaml (doc : JsonVal) (rng : Rng) : Option (Config × Rng) :=
  (configOfJson doc).map (fun c => validate c rng)

/-- Declarative form of a route: the route dict minus `service_name`
(which leaves keys `paths`, `name` in insertion order) plus the nested
`service` reference. -/
def declRouteToJson (r : Route) : JsonVal :=
  .obj [("paths", .arr (r.paths.map .str)),
        ("name", .str r.name),
        ("service", .obj [("name", .str r.service_name)])]

/-- The key-auth credential entries synthesized for consumers whose
`auth_type` is `key-auth`, in consumer-list order. -/
def keyauthCredentials (cs : List Consumer) : List JsonVal :=
  cs.filterMap fun c =>
    if c.auth_type = some "key-auth" then
      some (.obj [("consumer", .obj [("username", .str c.username)]),
                  ("key", .str ("demo-key-" ++ c.username))])
    else none

/-- `ConfigurationManager.to_declarative_config()`: the derived declarative
document.  The `keyauth_credentials` key exists exactly when some consumer
has `auth_type == "key-auth"`. -/
def to_declarative_config (cfg : Config) : JsonVal :=
  .obj ([("_format_version", .str "3.0"),
         ("services", .arr (cfg.services.map serviceToJson)),
         ("routes", .arr (cfg.routes.map declRouteToJson)),
         ("plugins", .arr (cfg.plugins.map pluginToJson)),
         ("consumers", .arr (cfg.consumers.map (fun c =>
            .obj [("username", .str c.username)]))),
         ("consumer_groups", .arr [])]
    ++ (if cfg.consumers.any (fun c => c.auth_type = some "key-auth") then
          [("keyauth_credentials", .arr (keyauthCredentials cfg.consumers))]
        else []))

/-! ## The specification-to-configuration transform
(`kong_config_from_spec_generator.py`) -/

/-- A route entry of an API specification (`route_spec.get(...)` fields). -/
structure SpecRoute where
  name : Option String
  path : Option String

/-- A service entry of an API specification. -/
structure SpecService where
  name : Option String
  url : Option String
  routes : Option (List SpecRoute)

/-- An API specification object (`self.specification`); endpoints are not
consumed by the transform and are not modelled. -/
structure Specification where
  services : Option (List SpecService)

/-- Default config dict of the `rate-limiting` feature. -/
def rateLimitingConfig : JsonVal :=
  .obj [("minute", .num 60 0), ("policy", .str "local")]

/-- Default config dict of the `response-transformer` feature. -/
def responseTransformerConfig : JsonVal :=
  .obj [("add", .obj [("headers", .arr [.str "x-kong-gateway: true"])])]

/-- Default config dict of the `request-transformer` feature. -/
def requestTransformerConfig : JsonVal :=
  .obj [("add", .obj [("headers", .arr [.str "x-kong-request: true"])])]

/-- Default config dict of the `http-log` feature. -/
def httpLogConfig : JsonVal :=
  .obj [("http_endpoint", .str "http://logger:3000/log"),
        ("method", .str "POST"),
        ("timeout", .num 10000 0),
        ("keepalive", .num 60000 0)]

/-- Default config dict of the `cors` feature. -/
def corsConfig : JsonVal :=
  .obj [("origins", .arr [.str "*"]),
        ("methods", .arr [.str "GET", .str "POST", .str "PUT", .str "DELETE",
                          .str "PATCH", .str "OPTIONS"]),
        ("headers", .arr [.str "Content-Type", .str "Authorization"]),
        ("exposed_headers", .arr [.str "X-Auth-Token"]),
        ("max_age", .num 3600 0)]

/-- Default config dict of the `proxy-cache` feature. -/
def proxyCacheConfig : JsonVal :=
  .obj [("strategy", .str "memory"),
        ("content_type", .arr [.str "application/json", .str "application/xml"]),
        ("cache_ttl", .num 300 0),
        ("cache_control", .bool true)]

/-- Default config dict of the `ip-restriction` feature. -/
def ipRestrictionConfig : JsonVal :=
  .obj [("allow", .arr [.str "127.0.0.1/32"])]

/-- Default config dict of the `request-size-limiting` feature. -/
def requestSizeLimitingConfig : JsonVal :=
  .obj [("allowed_payload_size", .num 10 0)]

/-- One dispatch step of `KongConfigFromSpecGenerator._add_feature_plugins`
for a single feature token. -/
def addFeaturePlugin (cfg : Config) (feature : String) : Config :=
  let fl := pyLower feature
  if fl = "key-auth" ∨ fl = "jwt" ∨ fl = "oauth2" ∨ fl = "basic-auth" then
    (add_consumer (add_plugin cfg fl none).2 "demo-user" (some fl)).2
  else if fl = "rate-limiting" then
    (add_plugin cfg "rate-limiting" (some rateLimitingConfig)).2
  else if fl = "response-transformer" then
    (add_plugin cfg "response-transformer" (some responseTransformerConfig)).2
  else if fl = "request-transformer" then
    (add_plugin cfg "request-transformer" (some requestTransformerConfig)).2
  else if fl = "http-log" ∨ fl = "logging" then
    (add_plugin cfg "http-log" (some httpLogConfig)).2
  else if fl = "cors" then
    (add_plugin cfg "cors" (some corsConfig)).2
  else if fl = "proxy-cache" ∨ fl = "cache" then
    (add_plugin cfg "proxy-cache" (some proxyCacheConfig)).2
  else if fl = "ip-restriction" then
    (add_plugin cfg "ip-restriction" (some ipRestrictionConfig)).2
  else if fl = "request-size-limiting" then
    (add_plugin cfg "request-size-limiting" (some requestSizeLimitingConfig)).2
  else if fl = "request-termination" then
    match cfg.routes.getLast? with
    | some r =>
      let note := "request-termination should be applied to route: " ++ r.name
      { cfg with termination_note := some note }
    | none => cfg
  else cfg

/-- `KongConfigFromSpecGenerator._add_feature_plugins`: dispatch every
feature token in order; unrecognized tokens are ignored. -/
def add_feature_plugins (cfg : Config) : List String → Config
  | [] => cfg
  | f :: rest => add_feature_plugins (addFeaturePlugin cfg f) rest

/-- The route loop of `generate_kong_config` for one service (defaults for
`path` and `name` come from the normalized service name returned by
`add_service`). -/
def genSpecRoutes (sname : String) : List SpecRoute → Config → Rng → Config × Rng
  | [], cfg, rng => (cfg, rng)
  | rs :: rest, cfg, rng =>
    let route_path := rs.path.getD ("/" ++ sname)
    let route_name := rs.name.getD (sname ++ "-route")
    let ar := add_route cfg sname [route_path] (some route_name) rng
    genSpecRoutes sname rest ar.2.1 ar.2.2

/-- The service loop of `generate_kong_config`. -/
def genSpecServices : List SpecService → Config → Rng → Config × Rng
  | [], cfg, rng => (cfg, rng)
  | ss :: rest, cfg, rng =>
    let service_name := ss.name.getD ""
    let service_url := ss.url.getD ("http://" ++ service_name ++ ":8080")
    let ar := add_service cfg service_name (some service_url) rng
    let p :=
      match ss.routes with
      | some routes => genSpecRoutes ar.1 routes ar.2.1 ar.2.2
      | none => (ar.2.1, ar.2.2)
    genSpecServices rest p.1 p.2

/-- `KongConfigFromSpecGenerator.generate_kong_config`: materialize the
specification's services and routes, then add the feature plugins. -/
def generate_kong_config (spec : Specification) (cfg : Config)
    (features : List String) (rng : Rng) : Config × Rng :=
  let p :=
    match spec.services with
    | some ss => genSpecServices ss cfg rng
    | none => (cfg, rng)
  (add_feature_plugins p.1 features, p.2)

/-! ## The remote deployment adapter (`kong_admin.py`)

The remote admin interface is modelled by a response schedule
`resp : Nat → Response`: the i-th HTTP call issued by the client receives
`resp i`.  Every issued call is recorded in a trace, so ordering and abort
properties are statements about the trace. -/

/-- An HTTP response from the remote admin interface: status code, body
text (used in error messages) and parsed JSON body (used in results). -/
structure Response where
  status : Nat
  text : String
  json : JsonVal

/-- One HTTP call issued by `KongAdminClient`, carrying the data of the
corresponding `requests.post`. -/
inductive KongCall where
  | createService (name url : String)
  | createRoute (service_name : String) (paths : List String) (name : String)
  | createPlugin (name : String) (config : Option JsonVal)
  | createConsumer (username : String)
  | addConsumerAuth (username auth_type : String)

/-- The status check shared by every `create_*` helper:
`if response.status_code not in (200, 201): raise Exception(prefix + text)`,
else `return response.json()`. -/
def postCheck (pfx : String) (r : Response) : Except String JsonVal :=
  if r.status = 200 ∨ r.status = 201 then Except.ok r.json
  else Except.error (pfx ++ r.text)

/-- `KongAdminClient.create_service` on the i-th issued call. -/
def create_service (resp : Nat → Response) (i : Nat) : Except String JsonVal :=
  postCheck "Failed to create service: " (resp i)

/-- `KongAdminClient.create_route` on the i-th issued call. -/
def create_route (resp : Nat → Response) (i : Nat) : Except String JsonVal :=
  postCheck "Failed to create route: " (resp i)

/-- `KongAdminClient.create_plugin` on the i-th issued call. -/
def create_plugin (resp : Nat → Response) (i : Nat) : Except String JsonVal :=
  postCheck "Failed to create plugin: " (resp i)

/-- `KongAdminClient.create_consumer` on the i-th issued call. -/
def create_consumer (resp : Nat → Response) (i : Nat) : Except String JsonVal :=
  postCheck "Failed to create consumer: " (resp i)

/-- One of the first three loops of `deploy_configuration`: issue one call
per element of `l`, collecting `response.json()` results, aborting on the
first failed status check.  Returns the phase outcome, the next call index
and the list of issued calls. -/
def deployList (resp : Nat → Response) (pfx : String) (call : α → KongCall) :
    List α → Nat → Except String (List JsonVal) × Nat × List KongCall
  | [], i => (Except.ok [], i, [])
  | a :: rest, i =>
    match postCheck pfx (resp i) with
    | Except.error e => (Except.error e, i + 1, [call a])
    | Except.ok j =>
      let p := deployList resp pfx call rest (i + 1)
      (p.1.map (j :: ·), p.2.1, call a :: p.2.2)

/-- `KongAdminClient.add_consumer_auth`: a real call (with status check) for
`key-auth`, a silent no-op (`pass`) for `jwt`, and
`ValueError("Unsupported auth type: ...")` for everything else. -/
def add_consumer_auth (resp : Nat → Response) (i : Nat)
    (username auth_type : String) :
    Except String JsonVal × Nat × List KongCall :=
  if auth_type = "key-auth" then
    (postCheck "Failed to add consumer auth: " (resp i), i + 1,
     [KongCall.addConsumerAuth username auth_type])
  else if auth_type = "jwt" then
    (Except.ok JsonVal.null, i, [])
  else
    (Except.error ("Unsupported auth type: " ++ auth_type), i, [])

/-- The consumer loop of `deploy_configuration`: create each consumer and,
when its `auth_type` is present and not `"none"`, immediately call
`add_consumer_auth`.  Only the creation results are collected. -/
def deployConsumers (resp : Nat → Response) :
    List Consumer → Nat → Except String (List JsonVal) × Nat × List KongCall
  | [], i => (Except.ok [], i, [])
  | c :: rest, i =>
    match create_consumer resp i with
    | Except.error e => (Except.error e, i + 1, [KongCall.createConsumer c.username])
    | Except.ok j =>
      match c.auth_type with
      | none =>
        let p := deployConsumers resp rest (i + 1)
        (p.1.map (j :: ·), p.2.1, KongCall.createConsumer c.username :: p.2.2)
      | some a =>
        if a = "none" then
          let p := deployConsumers resp rest (i + 1)
          (p.1.map (j :: ·), p.2.1, KongCall.createConsumer c.username :: p.2.2)
        else
          let q := add_consumer_auth resp (i + 1) c.username a
          match q.1 with
          | Except.error e =>
            (Except.error e, q.2.1, KongCall.createConsumer c.username :: q.2.2)
          | Except.ok _ =>
            let p := deployConsumers resp rest q.2.1
            (p.1.map (j :: ·), p.2.1,
             KongCall.createConsumer c.username :: (q.2.2 ++ p.2.2))

/-- The `results` dict returned by a successful deploy. -/
structure DeployResults where
  services : List JsonVal
  routes : List JsonVal
  plugins : List JsonVal
  consumers : List JsonVal

/-- `KongAdminClient.deploy_configuration`: the four phases in order.
Returns the outcome (results dict, or first raised error) together with the
full trace of issued calls. -/
def deploy_configuration (resp : Nat → Response) (cfg : Config) :
    Except String DeployResults × List KongCall :=
  match deployList resp "Failed to create service: "
      (fun s : Service => KongCall.createService s.name s.url) cfg.services 0 with
  | (Except.error e, _, tr) => (Except.error e, tr)
  | (Except.ok svcRes, i1, tr1) =>
    match deployList resp "Failed to create route: "
        (fun r : Route => KongCall.createRoute r.service_name r.paths r.name)
        cfg.routes i1 with
    | (Except.error e, _, tr) => (Except.error e, tr1 ++ tr)
    | (Except.ok rtRes, i2, tr2) =>
      match deployList resp "Failed to create plugin: "
          (fun p : Plugin => KongCall.createPlugin p.name p.config)
          cfg.plugins i2 with
      | (Except.error e, _, tr) => (Except.error e, tr1 ++ (tr2 ++ tr))
      | (Except.ok plRes, i3, tr3) =>
        match deployConsumers resp cfg.consumers i3 with
        | (Except.error e, _, tr) => (Except.error e, tr1 ++ (tr2 ++ (tr3 ++ tr)))
        | (Except.ok csRes, _, tr4) =>
          (Except.ok ⟨svcRes, rtRes, plRes, csRes⟩,
           tr1 ++ (tr2 ++ (tr3 ++ tr4)))

/-- The service-creation calls of a configuration, in list order. -/
def serviceCalls (cfg : Config) : List KongCall :=
  cfg.services.map fun s => KongCall.createService s.name s.url

/-- The route-creation calls of a configuration, in list order. -/
def routeCalls (cfg : Config) : List KongCall :=
  cfg.routes.map fun r => KongCall.createRoute r.service_name r.paths r.name

/-- The plugin-creation calls of a configuration, in list order. -/
def pluginCalls (cfg : Config) : List KongCall :=
  cfg.plugins.map fun p => KongCall.createPlugin p.name p.config

/-- The calls issued for one consumer when its auth type is supported:
creation, immediately followed by a credential call exactly for
`key-auth`. -/
def consumerCallsFor (c : Consumer) : List KongCall :=
  KongCall.createConsumer c.username ::
    (match c.auth_type with
     | some a => if a = "key-auth" then [KongCall.addConsumerAuth c.username a] else []
     | none => [])

/-- The consumer-phase call sequence as issued under an all-success
schedule, truncated at the first consumer whose auth type would raise
`ValueError` (its creation call is still issued before the raise). -/
def consumerPlan : List Consumer → List KongCall
  | [] => []
  | c :: rest =>
    KongCall.createConsumer c.username ::
      (match c.auth_type with
       | none => consumerPlan rest
       | some a =>
         if a = "none" then consumerPlan rest
         else if a = "key-auth" then
           KongCall.addConsumerAuth c.username a :: consumerPlan rest
         else if a = "jwt" then consumerPlan rest
         else [])

/-- The full ordered call sequence a deploy issues when every response
succeeds (truncated at an unsupported auth type, where the code raises). -/
def plannedCalls (cfg : Config) : List KongCall :=
  serviceCalls cfg ++ routeCalls cfg ++ pluginCalls cfg ++ consumerPlan cfg.consumers

/-- Number of calls issued for a consumer after its creation call, under a
successful deploy. -/
def authCallCount (c : Consumer) : Nat :=
  match c.auth_type with
  | some a => if a = "key-auth" then 1 else 0
  | none => 0

/-- The expected consumer-creation results: the JSON body of the response
to each consumer's creation call, whose index skips the interleaved
credential calls. -/
def consumerResults (resp : Nat → Response) : List Consumer → Nat → List JsonVal
  | [], _ => []
  | c :: rest, i => (resp i).json :: consumerResults resp rest (i + 1 + authCallCount c)

/-- A consumer whose `auth_type` does not make `add_consumer_auth` raise. -/
def supportedAuth (c : Consumer) : Prop :=
  c.auth_type = none ∨ c.auth_type = some "none" ∨
  c.auth_type = some "key-auth" ∨ c.auth_type = some "jwt"

/-- A 2xx HTTP status (the spec's phrasing of deploy success). -/
def status2xx (n : Nat) : Prop := 200 ≤ n ∧ n ≤ 299

/-- The status check the code actually performs. -/
def statusAccepted (r : Response) : Prop := r.status = 200 ∨ r.status = 201

/-! ## Specification extraction (`api_specification_generator.py`) -/

/-- The backtick character (used by the fenced-code-block search). -/
def btick : Char := Char.ofNat 96

/-- The opening-brace character. -/
def lbrace : Char := Char.ofNat 123

/-- The closing-brace character. -/
def rbrace : Char := Char.ofNat 125

/-- Python's `\s` / `str.strip()` whitespace (ASCII). -/
def pyIsSpace (c : Char) : Bool :=
  c = ' ' ∨ c = '\t' ∨ c = '\n' ∨ c = '\x0d' ∨ c = '\x0b' ∨ c = '\x0c'

/-- `s.strip()`. -/
def pyStrip (s : String) : String :=
  ⟨((s.data.dropWhile pyIsSpace).reverse.dropWhile pyIsSpace).reverse⟩

/-- Split a character list at the first occurrence of a triple backtick:
the characters before it and the characters after it. -/
def splitAtFence : List Char → Option (List Char × List Char)
  | a :: b :: c :: rest =>
    if a = btick ∧ b = btick ∧ c = btick then some ([], rest)
    else (splitAtFence (b :: c :: rest)).map fun p => (a :: p.1, p.2)
  | _ => none

/-- Strip a literal `json` language tag directly after an opening fence
(the regex's optional `(?:json)?` group). -/
def dropJsonTag (l : List Char) : List Char :=
  match l with
  | 'j' :: 's' :: 'o' :: 'n' :: rest => rest
  | _ => l

/-- All captures of `re.findall(r'```(?:json)?\s*(.*?)```', response,
re.DOTALL)`: for each opening fence, optionally drop a `json` tag and
leading whitespace, capture minimally up to the next closing fence, and
continue scanning after it. -/
def fencedBlocksAux (fuel : Nat) (l : List Char) : List (List Char) :=
  match fuel with
  | 0 => []
  | fuel + 1 =>
    match splitAtFence l with
    | none => []
    | some p =>
      match splitAtFence ((dropJsonTag p.2).dropWhile pyIsSpace) with
      | none => []
      | some q => q.1 :: fencedBlocksAux fuel q.2

/-- The fenced code blocks of a response string. -/
def fencedBlocks (s : String) : List String :=
  (fencedBlocksAux (s.data.length + 1) s.data).map fun l => ⟨l⟩

/-- The suffix of a character list starting at its first opening brace. -/
def dropToOpenBrace : List Char → Option (List Char)
  | [] => none
  | c :: rest => if c = lbrace then some (c :: rest) else dropToOpenBrace rest

/-- The suffix of a (reversed) character list starting at its first closing
brace. -/
def dropToCloseBraceRev : List Char → Option (List Char)
  | [] => none
  | c :: rest => if c = rbrace then some (c :: rest) else dropToCloseBraceRev rest

/-- The matches of `re.findall(r'(\{.*\})', response, re.DOTALL)`: the
greedy pattern yields at most one candidate, spanning from the first
opening brace to the last closing brace after it. -/
def braceMatches (s : String) : List String :=
  match dropToOpenBrace s.data with
  | none => []
  | some suffix =>
    match dropToCloseBraceRev suffix.reverse with
    | none => []
    | some revCand => [⟨revCand.reverse⟩]

/-- Hexadecimal digit value, for `\uXXXX` string escapes. -/
def hexVal (c : Char) : Option Nat :=
  if 48 ≤ c.toNat ∧ c.toNat ≤ 57 then some (c.toNat - 48)
  else if 97 ≤ c.toNat ∧ c.toNat ≤ 102 then some (c.toNat - 87)
  else if 65 ≤ c.toNat ∧ c.toNat ≤ 70 then some (c.toNat - 55)
  else none

/-- Parse the body of a JSON string after its opening quote; returns the
content and the characters after the closing quote. -/
def parseStringBody : List Char → Option (List Char × List Char)
  | [] => none
  | '"' :: rest => some ([], rest)
  | '\\' :: 'u' :: a :: b :: c :: d :: rest =>
    match hexVal a, hexVal b, hexVal c, hexVal d with
    | some ha, some hb, some hc, some hd =>
      let code := ((ha * 16 + hb) * 16 + hc) * 16 + hd
      (parseStringBody rest).map fun p => (Char.ofNat code :: p.1, p.2)
    | _, _, _, _ => none
  | '\\' :: e :: rest =>
    let esc : Option Char :=
      if e = '"' then some '"'
      else if e = '\\' then some '\\'
      else if e = '/' then some '/'
      else if e = 'b' then some '\x08'
      else if e = 'f' then some '\x0c'
      else if e = 'n' then some '\n'
      else if e = 'r' then some '\x0d'
      else if e = 't' then some '\t'
      else none
    match esc with
    | some c => (parseStringBody rest).map fun p => (c :: p.1, p.2)
    | none => none
  | c :: rest => (parseStringBody rest).map fun p => (c :: p.1, p.2)

/-- Is `c` a decimal digit? -/
def isDigitChar (c : Char) : Bool := 48 ≤ c.toNat ∧ c.toNat ≤ 57

/-- Numeric value of a digit list (digits already validated). -/
def digitsToNat (l : List Char) : Nat :=
  l.foldl (fun acc c => acc * 10 + (c.toNat - 48)) 0

/-- Parse an unsigned JSON integer part (strict: no leading zeros except a
lone `0`), returning digits and the rest. -/
def parseIntDigits (l : List Char) : Option (List Char × List Char) :=
  let ds := l.takeWhile isDigitChar
  let rest := l.dropWhile isDigitChar
  match ds with
  | [] => none
  | ['0'] => some (['0'], rest)
  | '0' :: _ :: _ => none
  | _ => some (ds, rest)

/-- Parse a JSON number (integer, or decimal fraction; exponents are outside
the modelled subset), returning `(mantissa, frac10)` and the rest. -/
def parseNumber (l : List Char) : Option ((Int × Nat) × List Char) :=
  let signed := match l with
    | '-' :: rest => (true, rest)
    | _ => (false, l)
  match parseIntDigits signed.2 with
  | none => none
  | some p =>
    let intVal := digitsToNat p.1
    match p.2 with
    | '.' :: afterDot =>
      let fs := afterDot.takeWhile isDigitChar
      let rest := afterDot.dropWhile isDigitChar
      if fs.isEmpty then none
      else
        let m : Int := Int.ofNat (intVal * 10 ^ fs.length + digitsToNat fs)
        some ((if signed.1 then -m else m, fs.length), rest)
    | rest =>
      let m : Int := Int.ofNat intVal
      some ((if signed.1 then -m else m, 0), rest)

/-- JSON parser whitespace (the four characters `json.loads` skips). -/
def jsonWsChar (c : Char) : Bool :=
  c = ' ' ∨ c = '\t' ∨ c = '\n' ∨ c = '\x0d'

mutual

/-- Parse one JSON value from the head of the input (leading whitespace
allowed), returning it and the rest.  `fuel` bounds recursion depth; the
callers supply `length + 1`, which always suffices because every level of
nesting consumes input. -/
def parseVal : Nat → List Char → Option (JsonVal × List Char)
  | 0, _ => none
  | fuel + 1, l =>
    match l.dropWhile jsonWsChar with
    | [] => none
    | c :: rest =>
      if c = '"' then
        (parseStringBody rest).map fun p => (JsonVal.str ⟨p.1⟩, p.2)
      else if c = lbrace then
        match rest.dropWhile jsonWsChar with
        | c' :: rest' =>
          if c' = rbrace then some (JsonVal.obj [], rest')
          else (parseObjItems fuel (c' :: rest')).map fun p => (JsonVal.obj p.1, p.2)
        | [] => none
      else if c = '[' then
        match rest.dropWhile jsonWsChar with
        | ']' :: rest' => some (JsonVal.arr [], rest')
        | l' => (parseArrItems fuel l').map fun p => (JsonVal.arr p.1, p.2)
      else
        match c :: rest with
        | 't' :: 'r' :: 'u' :: 'e' :: r => some (JsonVal.bool true, r)
        | 'f' :: 'a' :: 'l' :: 's' :: 'e' :: r => some (JsonVal.bool false, r)
        | 'n' :: 'u' :: 'l' :: 'l' :: r => some (JsonVal.null, r)
        | l' => (parseNumber l').map fun p => (JsonVal.num p.1.1 p.1.2, p.2)

/-- Parse the (nonempty) comma-separated items of a JSON array, consuming
the closing bracket. -/
def parseArrItems : Nat → List Char → Option (List JsonVal × List Char)
  | 0, _ => none
  | fuel + 1, l =>
    match parseVal fuel l with
    | none => none
    | some (v, rest) =>
      match rest.dropWhile jsonWsChar with
      | ',' :: rest' =>
        (parseArrItems fuel rest').map fun p => (v :: p.1, p.2)
      | ']' :: rest' => some ([v], rest')
      | _ => none

/-- Parse the (nonempty) comma-separated `"key": value` fields of a JSON
object, consuming the closing brace. -/
def parseObjItems : Nat → List Char → Option (List (String × JsonVal) × List Char)
  | 0, _ => none
  | fuel + 1, l =>
    match l.dropWhile jsonWsChar with
    | c :: rest =>
      if c = '"' then
        match parseStringBody rest with
        | none => none
        | some (key, afterKey) =>
          match afterKey.dropWhile jsonWsChar with
          | ':' :: afterColon =>
            match parseVal fuel afterColon with
            | none => none
            | some (v, rest') =>
              match rest'.dropWhile jsonWsChar with
              | ',' :: rest'' =>
                (parseObjItems fuel rest'').map fun p => ((⟨key⟩, v) :: p.1, p.2)
              | r :: rest'' =>
                if r = rbrace then some ([(⟨key⟩, v)], rest'') else none
              | [] => none
          | _ => none
      else none
    | [] => none

end

/-- `json.loads` on the modelled subset: parse one value and require only
whitespace after it (`Extra data` otherwise). -/
def json_loads (s : String) : Option JsonVal :=
  match parseVal (s.data.length + 1) s.data with
  | some (v, rest) => if (rest.dropWhile jsonWsChar).isEmpty then some v else none
  | none => none

/-- Does `pat` occur as a contiguous run at the head of `hay`? -/
def startsWithChars : List Char → List Char → Bool
  | _, [] => true
  | [], _ :: _ => false
  | h :: hs, p :: ps => h = p && startsWithChars hs ps

/-- Python's `pat in hay` substring test. -/
def hasSubstr (hay pat : String) : Bool :=
  let rec go : List Char → Bool
    | [] => pat.data.isEmpty
    | c :: rest => startsWithChars (c :: rest) pat.data || go rest
  go hay.data

/-- `ApiSpecificationGenerator._generic_template` (the `features` argument
is ignored by every template). -/
def generic_template (_features : List String) : JsonVal :=
  .obj [("services", .arr [
    .obj [("name", .str "api_service"),
          ("description", .str "Generic API Service"),
          ("url", .str "http://api-service:8080"),
          ("routes", .arr [
            .obj [("name", .str "api_route"),
                  ("path", .str "/api"),
                  ("endpoints", .arr [
                    .obj [("path", .str "/items"),
                          ("method", .str "GET"),
                          ("description", .str "List all items"),
                          ("request_params", .obj []),
                          ("response_example", .obj [("items", .arr [
                            .obj [("id", .num 1 0), ("name", .str "Item 1")]])])],
                    .obj [("path", .str "/items/{id}"),
                          ("method", .str "GET"),
                          ("description", .str "Get a specific item"),
                          ("request_params", .obj [("id", .str "integer")]),
                          ("response_example", .obj [("id", .num 1 0),
                            ("name", .str "Item 1"),
                            ("description", .str "Description")])],
                    .obj [("path", .str "/items"),
                          ("method", .str "POST"),
                          ("description", .str "Create a new item"),
                          ("request_params", .obj [("name", .str "string"),
                            ("description", .str "string")]),
                          ("response_example", .obj [("id", .num 2 0),
                            ("name", .str "New Item"),
                            ("description", .str "New Description")])]])]])]])]

/-- `ApiSpecificationGenerator._insurance_template`. -/
def insurance_template (_features : List String) : JsonVal :=
  .obj [("services", .arr [
    .obj [("name", .str "policy_service"),
          ("description", .str "Insurance Policy Service"),
          ("url", .str "http://policy-service:8080"),
          ("routes", .arr [
            .obj [("name", .str "policy_route"),
                  ("path", .str "/policies"),
                  ("endpoints", .arr [
                    .obj [("path", .str "/"),
                          ("method", .str "GET"),
                          ("description", .str "List all policies"),
                          ("request_params", .obj []),
                          ("response_example", .obj [("policies", .arr [
                            .obj [("id", .str "POL-001"), ("type", .str "auto"),
                                  ("status", .str "active")]])])],
                    .obj [("path", .str "/{id}"),
                          ("method", .str "GET"),
                          ("description", .str "Get a specific policy"),
                          ("request_params", .obj [("id", .str "string")]),
                          ("response_example", .obj [("id", .str "POL-001"),
                            ("type", .str "auto"),
                            ("status", .str "active"),
                            ("customer_id", .str "CUS-123"),
                            ("vehicle", .obj [("make", .str "Toyota"),
                              ("model", .str "Camry"), ("year", .num 2020 0)])])]])]])],
    .obj [("name", .str "claims_service"),
          ("description", .str "Insurance Claims Service"),
          ("url", .str "http://claims-service:8080"),
          ("routes", .arr [
            .obj [("name", .str "claims_route"),
                  ("path", .str "/claims"),
                  ("endpoints", .arr [
                    .obj [("path", .str "/"),
                          ("method", .str "GET"),
                          ("description", .str "List all claims"),
                          ("request_params", .obj [("policy_id", .str "string (optional)")]),
                          ("response_example", .obj [("claims", .arr [
                            .obj [("id", .str "CLM-001"), ("policy_id", .str "POL-001"),
                                  ("status", .str "pending")]])])],
                    .obj [("path", .str "/{id}"),
                          ("method", .str "GET"),
                          ("description", .str "Get a specific claim"),
                          ("request_params", .obj [("id", .str "string")]),
                          ("response_example", .obj [("id", .str "CLM-001"),
                            ("policy_id", .str "POL-001"),
                            ("status", .str "pending"),
                            ("incident_date", .str "2023-06-15"),
                            ("description", .str "Vehicle damage due to accident")])]])]])]])]

/-- `ApiSpecificationGenerator._ecommerce_template`. -/
def ecommerce_template (_features : List String) : JsonVal :=
  .obj [("services", .arr [
    .obj [("name", .str "product_service"),
          ("description", .str "Product Catalog Service"),
          ("url", .str "http://product-service:8080"),
          ("routes", .arr [
            .obj [("name", .str "product_route"),
                  ("path", .str "/products"),
                  ("endpoints", .arr [
                    .obj [("path", .str "/"),
                          ("method", .str "GET"),
                          ("description", .str "List all products"),
                          ("request_params", .obj [("category", .str "string (optional)"),
                            ("limit", .str "integer (optional)")]),
                          ("response_example", .obj [("products", .arr [
                            .obj [("id", .num 1 0), ("name", .str "Product 1"),
                                  ("price", .num 2999 2)]])])],
                    .obj [("path", .str "/{id}"),
                          ("method", .str "GET"),
                          ("description", .str "Get a specific product"),
                          ("request_params", .obj [("id", .str "integer")]),
                          ("response_example", .obj [("id", .num 1 0),
                            ("name", .str "Product 1"),
                            ("price", .num 2999 2),
                            ("description", .str "Product description"),
                            ("category", .str "electronics"),
                            ("stock", .num 100 0)])]])]])],
    .obj [("name", .str "order_service"),
          ("description", .str "Order Management Service"),
          ("url", .str "http://order-service:8080"),
          ("routes", .arr [
            .obj [("name", .str "order_route"),
                  ("path", .str "/orders"),
                  ("endpoints", .arr [
                    .obj [("path", .str "/"),
                          ("method", .str "GET"),
                          ("description", .str "List all orders"),
                          ("request_params", .obj [("customer_id", .str "string (optional)")]),
                          ("response_example", .obj [("orders", .arr [
                            .obj [("id", .str "ORD-001"), ("status", .str "shipped"),
                                  ("total", .num 5998 2)]])])],
                    .obj [("path", .str "/{id}"),
                          ("method", .str "GET"),
                          ("description", .str "Get a specific order"),
                          ("request_params", .obj [("id", .str "string")]),
                          ("response_example", .obj [("id", .str "ORD-001"),
                            ("customer_id", .str "CUS-123"),
                            ("status", .str "shipped"),
                            ("total", .num 5998 2),
                            ("items", .arr [
                              .obj [("product_id", .num 1 0), ("quantity", .num 2 0),
                                    ("price", .num 2999 2)]]),
                            ("shipping_address", .obj [("street", .str "123 Main St"),
                              ("city", .str "Anytown"),
                              ("zip", .str "12345")])])]])]])]])]

/-- `ApiSpecificationGenerator._generate_from_templates`: dispatch on
substrings of the business type. -/
def generate_from_templates (business_type : String) (features : List String) : JsonVal :=
  if hasSubstr business_type "insurance" then insurance_template features
  else if hasSubstr business_type "ecommerce" then ecommerce_template features
  else generic_template features

/-- Try `json.loads(match.strip())` on each candidate in turn, first
success winning (the inner `for`/`try`/`continue` loops). -/
def tryParseEach : List String → Option JsonVal
  | [] => none
  | m :: rest =>
    match json_loads (pyStrip m) with
    | some v => some v
    | none => tryParseEach rest

/-- `ApiSpecificationGenerator._extract_json_from_response`: whole-response
parse, then fenced code blocks, then the brace-delimited candidate, then the
deterministic template fallback with the `["basic"]` feature list. -/
def extract_json_from_response (response : String) (business_type : String) : JsonVal :=
  match json_loads response with
  | some v => v
  | none =>
    match tryParseEach (fencedBlocks response) with
    | some v => v
    | none =>
      match tryParseEach (braceMatches response) with
      | some v => v
      | none => generate_from_templates business_type ["basic"]

/-! ## Helper definitions and concrete scenario instances -/

/-- The combined per-character action of `normalizeName`. -/
def normChar (c : Char) : Char := pyLowerChar (dashToUnderscoreChar c)

/-- The name synthesized by the no-services branch of the route loop. -/
def synthName (rng : Rng) : String :=
  "default_service_" ++ natToString (randint1000to9999 rng).1

/-- The configuration and stream after the route loop's
`self.add_service(default_name, None)`. -/
def synthService (cfg : Config) (rng : Rng) : Config × Rng :=
  ((add_service cfg (synthName rng) none (randint1000to9999 rng).2).2.1,
   (add_service cfg (synthName rng) none (randint1000to9999 rng).2).2.2)

/-- The all-zero random stream, used to instantiate concrete scenarios. -/
def rngZero : Rng := fun _ => 0

/-- A configuration with a single dangling route and no services. -/
def cfgDangling : Config := ⟨[], [⟨"x", ["/p"], "r"⟩], [], [], none, none⟩

/-- Number of entries of the `services` array of a declarative document. -/
def declServicesLength (j : JsonVal) : Nat :=
  match jsonLookup j "services" with
  | some (.arr l) => l.length
  | _ => 0

/-- A demo configuration with one service, route, plugin and key-auth
consumer. -/
def cfgDemo : Config :=
  ⟨[⟨"s", "u"⟩], [⟨"s", ["/p"], "r"⟩], [⟨"cors", none⟩],
   [⟨"d", some "key-auth"⟩], none, none⟩

/-- A schedule that always answers 201 with the call index as body. -/
def respOk201 : Nat → Response := fun i => ⟨201, "", JsonVal.num (Int.ofNat i) 0⟩

/-- Two services, nothing else — two planned calls. -/
def cfgTwoServices : Config := ⟨[⟨"a", "ua"⟩, ⟨"b", "ub"⟩], [], [], [], none, none⟩

/-- Accepted first response, server error on the second call. -/
def resp201then500 : Nat → Response :=
  fun i => if i = 0 then ⟨201, "t0", JsonVal.null⟩ else ⟨500, "t1", JsonVal.null⟩

/-- A 204 then a 500 response. -/
def resp204then500 : Nat → Response :=
  fun i => if i = 0 then ⟨204, "t0", JsonVal.null⟩ else ⟨500, "t1", JsonVal.null⟩

/-- One consumer with auth type `jwt`. -/
def cfgJwtConsumer : Config := ⟨[], [], [], [⟨"u", some "jwt"⟩], none, none⟩

/-- One consumer with auth type `basic-auth`. -/
def cfgBasicConsumer : Config := ⟨[], [], [], [⟨"u", some "basic-auth"⟩], none, none⟩

/-! ## Lemmas: name normalization -/

/-- `Char.ofNat` round-trips on the ASCII range. -/
theorem charOfNat_toNat {n : Nat} (h : n ≤ 122) : (Char.ofNat n).toNat = n := by
  have hv : n.isValidChar := Or.inl (by omega)
  unfold Char.ofNat
  rw [dif_pos hv]
  rfl


theorem normalizeName_eq (s : String) : normalizeName s = ⟨s.data.map normChar⟩ := by
  simp only [normalizeName, pyLower, dashToUnderscore, List.map_map]
  rfl

theorem pyLowerChar_of_not_upper {c : Char}
    (h : ¬(65 ≤ c.toNat ∧ c.toNat ≤ 90)) : pyLowerChar c = c := by
  unfold pyLowerChar
  rw [if_neg h]

theorem pyLowerChar_not_upper (c : Char) :
    ¬(65 ≤ (pyLowerChar c).toNat ∧ (pyLowerChar c).toNat ≤ 90) := by
  unfold pyLowerChar
  by_cases h : 65 ≤ c.toNat ∧ c.toNat ≤ 90
  · rw [if_pos h]
    rw [charOfNat_toNat (by omega)]
    omega
  · rw [if_neg h]
    exact h

theorem pyLowerChar_idem (c : Char) : pyLowerChar (pyLowerChar c) = pyLowerChar c :=
  pyLowerChar_of_not_upper (pyLowerChar_not_upper c)

theorem pyLowerChar_ne_dash {c : Char} (h : c ≠ '-') : pyLowerChar c ≠ '-' := by
  unfold pyLowerChar
  by_cases hu : 65 ≤ c.toNat ∧ c.toNat ≤ 90
  · rw [if_pos hu]
    intro heq
    have h2 := congrArg Char.toNat heq
    rw [charOfNat_toNat (by omega)] at h2
    have hd : ('-').toNat = 45 := rfl
    rw [hd] at h2
    omega
  · rw [if_neg hu]
    exact h

theorem dashToUnderscoreChar_of_ne {c : Char} (h : c ≠ '-') :
    dashToUnderscoreChar c = c := by
  unfold dashToUnderscoreChar
  rw [if_neg h]

theorem dashToUnderscoreChar_ne_dash (c : Char) : dashToUnderscoreChar c ≠ '-' := by
  unfold dashToUnderscoreChar
  by_cases h : c = '-'
  · rw [if_pos h]
    decide
  · rw [if_neg h]
    exact h

theorem normChar_ne_dash (c : Char) : normChar c ≠ '-' :=
  pyLowerChar_ne_dash (dashToUnderscoreChar_ne_dash c)

theorem normChar_idem (c : Char) : normChar (normChar c) = normChar c := by
  have h1 : dashToUnderscoreChar (normChar c) = normChar c :=
    dashToUnderscoreChar_of_ne (normChar_ne_dash c)
  show pyLowerChar (dashToUnderscoreChar (normChar c)) = normChar c
  rw [h1]
  exact pyLowerChar_idem _

/-- A list maps to itself under a function fixing each of its elements. -/
theorem map_eq_self_of {f : α → α} :
    ∀ l : List α, (∀ c ∈ l, f c = c) → l.map f = l
  | [], _ => rfl
  | c :: rest, h => by
    simp only [List.map_cons]
    rw [h c (List.mem_cons_self c rest), map_eq_self_of rest
      (fun x hx => h x (List.mem_cons_of_mem c hx))]

/-- Normalization is idempotent. -/
theorem normalizeName_idem (s : String) :
    normalizeName (normalizeName s) = normalizeName s := by
  rw [normalizeName_eq, normalizeName_eq]
  show (⟨(s.data.map normChar).map normChar⟩ : String) = ⟨s.data.map normChar⟩
  rw [List.map_map]
  exact congrArg (fun l => String.mk l)
    (List.map_congr_left fun a _ => normChar_idem a)

/-- Normalization preserves nonemptiness. -/
theorem normalizeName_ne_empty {s : String} (h : s ≠ "") : normalizeName s ≠ "" := by
  rw [normalizeName_eq]
  intro heq
  apply h
  have : s.data.map normChar = [] := congrArg String.data heq
  rcases List.map_eq_nil_iff.mp this with h0
  cases s
  simp_all

/-- Every character produced by `natDigitsAux` is a digit character. -/
theorem natDigitsAux_digits :
    ∀ fuel n c, c ∈ natDigitsAux fuel n → ∃ k, k < 10 ∧ c = digitOf k := by
  intro fuel
  induction fuel with
  | zero => intro n c hc; simp [natDigitsAux] at hc
  | succ fuel ih =>
    intro n c hc
    unfold natDigitsAux at hc
    by_cases h : n < 10
    · rw [if_pos h] at hc
      simp at hc
      exact ⟨n, h, hc⟩
    · rw [if_neg h] at hc
      rcases List.mem_append.mp hc with h1 | h1
      · exact ih _ _ h1
      · simp at h1
        exact ⟨n % 10, Nat.mod_lt _ (by omega), h1⟩

theorem normChar_digitOf {k : Nat} (h : k < 10) : normChar (digitOf k) = digitOf k := by
  interval_cases k <;> decide

/-- The synthesized `default_service_{digits}` names are already in normal
form. -/
theorem normalizeName_default_service (n : Nat) :
    normalizeName ("default_service_" ++ natToString n) =
      "default_service_" ++ natToString n := by
  rw [normalizeName_eq]
  show (⟨("default_service_".data ++ (natToString n).data).map normChar⟩ : String) = _
  rw [List.map_append]
  have h1 : "default_service_".data.map normChar = "default_service_".data := by decide
  have h2 : (natToString n).data.map normChar = (natToString n).data := by
    apply map_eq_self_of
    intro c hc
    rcases natDigitsAux_digits _ _ _ hc with ⟨k, hk, rfl⟩
    exact normChar_digitOf hk
  rw [h1, h2]
  rfl

theorem string_append_data (s t : String) : (s ++ t).data = s.data ++ t.data := by
  cases s
  cases t
  rfl

theorem default_service_ne_empty (n : Nat) :
    ("default_service_" ++ natToString n) ≠ "" := by
  intro h
  have h2 := congrArg String.data h
  rw [string_append_data] at h2
  simp at h2

/-! ## Lemmas: the `validate` repair pass -/

/-- After the service loop, every service name is nonempty and in normal
form. -/
theorem validateServices_names :
    ∀ (l : List Service) (rng : Rng) (s : Service),
      s ∈ (validateServices l rng).1 →
      s.name ≠ "" ∧ normalizeName s.name = s.name := by
  intro l
  induction l with
  | nil => intro rng s hs; simp [validateServices] at hs
  | cons a rest ih =>
    intro rng s hs
    unfold validateServices at hs
    by_cases h : a.name = ""
    · simp only [if_pos h] at hs
      rcases List.mem_cons.mp hs with h1 | h1
      · subst h1
        refine ⟨normalizeName_ne_empty (default_service_ne_empty _), ?_⟩
        exact normalizeName_idem _
      · exact ih _ _ h1
    · simp only [if_neg h] at hs
      rcases List.mem_cons.mp hs with h1 | h1
      · subst h1
        exact ⟨normalizeName_ne_empty h, normalizeName_idem _⟩
      · exact ih _ _ h1

/-- The service loop is the identity on lists whose names are already
nonempty and normalized, and consumes no randomness. -/
theorem validateServices_fixed :
    ∀ (l : List Service) (rng : Rng),
      (∀ s ∈ l, s.name ≠ "" ∧ normalizeName s.name = s.name) →
      validateServices l rng = (l, rng) := by
  intro l
  induction l with
  | nil => intro rng _; rfl
  | cons a rest ih =>
    intro rng h
    have ha := h a (List.mem_cons_self a rest)
    unfold validateServices
    simp only [if_neg ha.1]
    rw [ih rng (fun s hs => h s (List.mem_cons_of_mem a hs))]
    rw [ha.2]


theorem synthName_ne_empty (rng : Rng) : synthName rng ≠ "" :=
  default_service_ne_empty _

/-- `add_service` with a nonempty name and no URL: append the normalized
name with the default URL, drawing no randomness. -/
theorem add_service_none (cfg : Config) (name : String) (rng : Rng)
    (h : name ≠ "") :
    add_service cfg name none rng =
      (normalizeName name,
       { cfg with services := cfg.services ++
           [⟨normalizeName name, "http://" ++ normalizeName name ++ ":8080"⟩] },
       rng) := by
  unfold add_service
  simp only [if_neg h]

theorem validateRoutes_step_synth (r : Route) (rest : List Route)
    (cfg : Config) (rng : Rng) :
    validateRoutes [] (r :: rest) cfg rng =
      ({ r with service_name := normalizeName (synthName rng) } ::
         (validateRoutes [] rest (synthService cfg rng).1 (synthService cfg rng).2).1,
       (validateRoutes [] rest (synthService cfg rng).1 (synthService cfg rng).2).2.1,
       (validateRoutes [] rest (synthService cfg rng).1 (synthService cfg rng).2).2.2) := by
  have hc : r.service_name = "" ∨ ¬ r.service_name ∈ ([] : List String) := by simp
  conv_lhs => rw [validateRoutes.eq_def]
  change (if r.service_name = "" ∨ ¬ r.service_name ∈ ([] : List String)
          then _ else _) = _
  rw [if_pos hc]
  rfl

theorem validateRoutes_step_first (n₀ : String) (ns : List String) (r : Route)
    (rest : List Route) (cfg : Config) (rng : Rng)
    (hc : r.service_name = "" ∨ ¬ r.service_name ∈ (n₀ :: ns)) :
    validateRoutes (n₀ :: ns) (r :: rest) cfg rng =
      ({ r with service_name := normalizeName n₀ } ::
         (validateRoutes (n₀ :: ns) rest cfg rng).1,
       (validateRoutes (n₀ :: ns) rest cfg rng).2.1,
       (validateRoutes (n₀ :: ns) rest cfg rng).2.2) := by
  conv_lhs => rw [validateRoutes.eq_def]
  change (if r.service_name = "" ∨ ¬ r.service_name ∈ (n₀ :: ns)
          then _ else _) = _
  rw [if_pos hc]

theorem validateRoutes_step_keep (names : List String) (r : Route)
    (rest : List Route) (cfg : Config) (rng : Rng)
    (hc : ¬(r.service_name = "" ∨ ¬ r.service_name ∈ names)) :
    validateRoutes names (r :: rest) cfg rng =
      ({ r with service_name := normalizeName r.service_name } ::
         (validateRoutes names rest cfg rng).1,
       (validateRoutes names rest cfg rng).2.1,
       (validateRoutes names rest cfg rng).2.2) := by
  conv_lhs => rw [validateRoutes.eq_def]
  change (if r.service_name = "" ∨ ¬ r.service_name ∈ names
          then _ else _) = _
  rw [if_neg hc]

/-- Full characterization of the route loop: services are only appended
(and any appended service has a nonempty normalized name), the other
configuration fields are untouched, and every output route has a nonempty
normalized service reference that resolves either into `names` or into the
final service list. -/
theorem validateRoutes_spec :
    ∀ (names : List String) (l : List Route) (cfg : Config) (rng : Rng),
      (∀ n ∈ names, n ≠ "" ∧ normalizeName n = n) →
      (∃ extra : List Service,
          (validateRoutes names l cfg rng).2.1.services = cfg.services ++ extra ∧
          ∀ s ∈ extra, s.name ≠ "" ∧ normalizeName s.name = s.name) ∧
      (validateRoutes names l cfg rng).2.1.routes = cfg.routes ∧
      (validateRoutes names l cfg rng).2.1.plugins = cfg.plugins ∧
      (validateRoutes names l cfg rng).2.1.consumers = cfg.consumers ∧
      (validateRoutes names l cfg rng).2.1.auth_plugin = cfg.auth_plugin ∧
      (validateRoutes names l cfg rng).2.1.termination_note = cfg.termination_note ∧
      ∀ r ∈ (validateRoutes names l cfg rng).1,
        r.service_name ≠ "" ∧ normalizeName r.service_name = r.service_name ∧
        (r.service_name ∈ names ∨
         r.service_name ∈ (validateRoutes names l cfg rng).2.1.services.map Service.name) := by
  intro names l
  induction l with
  | nil =>
    intro cfg rng _
    refine ⟨⟨[], by simp [validateRoutes], by simp⟩, ?_, ?_, ?_, ?_, ?_, ?_⟩ <;>
      simp [validateRoutes]
  | cons r rest ih =>
    intro cfg rng hn
    cases names with
    | nil =>
      rw [validateRoutes_step_synth]
      have hsvc : (synthService cfg rng).1 =
          { cfg with services := cfg.services ++
              [⟨normalizeName (synthName rng),
                "http://" ++ normalizeName (synthName rng) ++ ":8080"⟩] } := by
        unfold synthService
        rw [add_service_none cfg (synthName rng) _ (synthName_ne_empty rng)]
      rcases ih (synthService cfg rng).1 (synthService cfg rng).2 hn with
        ⟨⟨extra, hex, hexn⟩, hr, hp, hcs, hap, htn, hroutes⟩
      constructor
      · refine ⟨⟨normalizeName (synthName rng),
          "http://" ++ normalizeName (synthName rng) ++ ":8080"⟩ :: extra, ?_, ?_⟩
        · rw [hex, hsvc]
          simp
        · intro s hs
          rcases List.mem_cons.mp hs with h1 | h1
          · subst h1
            exact ⟨normalizeName_ne_empty (synthName_ne_empty rng),
              normalizeName_idem _⟩
          · exact hexn s h1
      have hcfg1 : (synthService cfg rng).1.routes = cfg.routes := by rw [hsvc]
      have hcfg2 : (synthService cfg rng).1.plugins = cfg.plugins := by rw [hsvc]
      have hcfg3 : (synthService cfg rng).1.consumers = cfg.consumers := by rw [hsvc]
      have hcfg4 : (synthService cfg rng).1.auth_plugin = cfg.auth_plugin := by rw [hsvc]
      have hcfg5 : (synthService cfg rng).1.termination_note = cfg.termination_note := by
        rw [hsvc]
      refine ⟨by rw [hr, hcfg1], by rw [hp, hcfg2], by rw [hcs, hcfg3],
        by rw [hap, hcfg4], by rw [htn, hcfg5], ?_⟩
      intro x hx
      rcases List.mem_cons.mp hx with h1 | h1
      · subst h1
        refine ⟨normalizeName_ne_empty (synthName_ne_empty rng),
          by simp [normalizeName_idem], ?_⟩
        right
        rw [hex, hsvc]
        simp [normalizeName_idem]
      · rcases hroutes x h1 with ⟨hx1, hx2, hx3⟩
        refine ⟨hx1, hx2, ?_⟩
        rcases hx3 with h3 | h3
        · simp at h3
        · right; exact h3
    | cons n₀ ns =>
      by_cases hc : r.service_name = "" ∨ ¬ r.service_name ∈ (n₀ :: ns)
      · rw [validateRoutes_step_first n₀ ns r rest cfg rng hc]
        rcases ih cfg rng hn with ⟨⟨extra, hex, hexn⟩, hr, hp, hcs, hap, htn, hroutes⟩
        have hn₀ := hn n₀ (List.mem_cons_self _ _)
        refine ⟨⟨extra, hex, hexn⟩, hr, hp, hcs, hap, htn, ?_⟩
        intro x hx
        rcases List.mem_cons.mp hx with h1 | h1
        · subst h1
          refine ⟨normalizeName_ne_empty hn₀.1, by simp [normalizeName_idem], ?_⟩
          left
          rw [hn₀.2]
          exact List.mem_cons_self _ _
        · exact hroutes x h1
      · rw [validateRoutes_step_keep (n₀ :: ns) r rest cfg rng hc]
        push_neg at hc
        rcases ih cfg rng hn with ⟨⟨extra, hex, hexn⟩, hr, hp, hcs, hap, htn, hroutes⟩
        have hin := hn r.service_name hc.2
        refine ⟨⟨extra, hex, hexn⟩, hr, hp, hcs, hap, htn, ?_⟩
        intro x hx
        rcases List.mem_cons.mp hx with h1 | h1
        · subst h1
          refine ⟨normalizeName_ne_empty hc.1, by simp [normalizeName_idem], ?_⟩
          left
          rw [hin.2]
          exact hc.2
        · exact hroutes x h1

/-- The route loop is the identity (and consumes no randomness) when every
route's reference is nonempty, normalized, and resolves in `names`. -/
theorem validateRoutes_fixed :
    ∀ (names : List String) (l : List Route) (cfg : Config) (rng : Rng),
      (∀ r ∈ l, r.service_name ≠ "" ∧ r.service_name ∈ names ∧
                normalizeName r.service_name = r.service_name) →
      validateRoutes names l cfg rng = (l, cfg, rng) := by
  intro names l
  induction l with
  | nil => intro cfg rng _; rfl
  | cons r rest ih =>
    intro cfg rng h
    have hr := h r (List.mem_cons_self r rest)
    have hc : ¬(r.service_name = "" ∨ ¬ r.service_name ∈ names) := by
      push_neg
      exact ⟨hr.1, hr.2.1⟩
    rw [validateRoutes_step_keep names r rest cfg rng hc]
    rw [ih cfg rng (fun x hx => h x (List.mem_cons_of_mem r hx))]
    rw [hr.2.2]

/-- `validate` written out: the service pass feeds the (pre-loop) name list
and the route pass; the repaired routes replace the old ones. -/
theorem validate_eq (cfg : Config) (rng : Rng) :
    validate cfg rng =
      (⟨(validateRoutes ((validateServices cfg.services rng).1.map Service.name)
           cfg.routes { cfg with services := (validateServices cfg.services rng).1 }
           (validateServices cfg.services rng).2).2.1.services,
        (validateRoutes ((validateServices cfg.services rng).1.map Service.name)
           cfg.routes { cfg with services := (validateServices cfg.services rng).1 }
           (validateServices cfg.services rng).2).1,
        (validateRoutes ((validateServices cfg.services rng).1.map Service.name)
           cfg.routes { cfg with services := (validateServices cfg.services rng).1 }
           (validateServices cfg.services rng).2).2.1.plugins,
        (validateRoutes ((validateServices cfg.services rng).1.map Service.name)
           cfg.routes { cfg with services := (validateServices cfg.services rng).1 }
           (validateServices cfg.services rng).2).2.1.consumers,
        (validateRoutes ((validateServices cfg.services rng).1.map Service.name)
           cfg.routes { cfg with services := (validateServices cfg.services rng).1 }
           (validateServices cfg.services rng).2).2.1.auth_plugin,
        (validateRoutes ((validateServices cfg.services rng).1.map Service.name)
           cfg.routes { cfg with services := (validateServices cfg.services rng).1 }
           (validateServices cfg.services rng).2).2.1.termination_note⟩,
       (validateRoutes ((validateServices cfg.services rng).1.map Service.name)
           cfg.routes { cfg with services := (validateServices cfg.services rng).1 }
           (validateServices cfg.services rng).2).2.2) := rfl

/-- Post-conditions of one `validate` pass: every service name is nonempty
and normalized, and every route reference is nonempty, normalized, and
resolves to a service of the repaired configuration. -/
theorem validate_post (cfg : Config) (rng : Rng) :
    (∀ s ∈ (validate cfg rng).1.services,
        s.name ≠ "" ∧ normalizeName s.name = s.name) ∧
    (∀ r ∈ (validate cfg rng).1.routes,
        r.service_name ≠ "" ∧ normalizeName r.service_name = r.service_name ∧
        r.service_name ∈ (validate cfg rng).1.services.map Service.name) := by
  have hn : ∀ n ∈ (validateServices cfg.services rng).1.map Service.name,
      n ≠ "" ∧ normalizeName n = n := by
    intro n hnn
    rcases List.mem_map.mp hnn with ⟨s, hs, rfl⟩
    exact validateServices_names _ _ _ hs
  rcases validateRoutes_spec ((validateServices cfg.services rng).1.map Service.name)
      cfg.routes { cfg with services := (validateServices cfg.services rng).1 }
      (validateServices cfg.services rng).2 hn with
    ⟨⟨extra, hex, hexn⟩, _, _, _, _, _, hroutes⟩
  have hsvc1 : ({ cfg with services := (validateServices cfg.services rng).1 } : Config).services
      = (validateServices cfg.services rng).1 := rfl
  rw [hsvc1] at hex
  rw [validate_eq]
  constructor
  · intro s hs
    simp only at hs
    rw [hex] at hs
    rcases List.mem_append.mp hs with h1 | h1
    · exact validateServices_names _ _ _ h1
    · exact hexn s h1
  · intro r hr
    simp only at hr
    rcases hroutes r hr with ⟨h1, h2, h3⟩
    refine ⟨h1, h2, ?_⟩
    simp only
    rcases h3 with h3 | h3
    · rw [hex, List.map_append]
      exact List.mem_append_left _ h3
    · exact h3

theorem config_eta (c : Config) :
    (⟨c.services, c.routes, c.plugins, c.consumers,
      c.auth_plugin, c.termination_note⟩ : Config) = c := rfl

/-- Claim C1: for every configuration of the documented shape (which covers
everything reachable through the `add_*` operations or bulk load) and every
random stream, `validate()` returns (it is a total function of the model)
and afterwards every route's `service_name` equals the name of some service
present in the services list. -/
theorem validate_resolves_routes (cfg : Config) (rng : Rng) :
    ∀ r ∈ (validate cfg rng).1.routes,
      r.service_name ∈ (validate cfg rng).1.services.map Service.name :=
  fun r hr => ((validate_post cfg rng).2 r hr).2.2


theorem validate_resolves_routes_witness :
    (⟨"default_service_1000", ["/p"], "r"⟩ : Route) ∈ (validate cfgDangling rngZero).1.routes ∧
    "default_service_1000" ∈ (validate cfgDangling rngZero).1.services.map Service.name :=
  ⟨by decide, validate_resolves_routes cfgDangling rngZero
    ⟨"default_service_1000", ["/p"], "r"⟩ (by decide)⟩

/-- Claim C6: `validate()` is idempotent — a second call (with any random
stream) leaves the configuration exactly as the first call produced it. -/
theorem validate_idempotent (cfg : Config) (rng rng₂ : Rng) :
    (validate (validate cfg rng).1 rng₂).1 = (validate cfg rng).1 := by
  obtain ⟨hs, hr⟩ := validate_post cfg rng
  have h1 : validateServices (validate cfg rng).1.services rng₂ =
      ((validate cfg rng).1.services, rng₂) := validateServices_fixed _ _ hs
  have h3 : ({ (validate cfg rng).1 with
      services := (validate cfg rng).1.services } : Config) = (validate cfg rng).1 := rfl
  have h2 : validateRoutes ((validate cfg rng).1.services.map Service.name)
      (validate cfg rng).1.routes (validate cfg rng).1 rng₂ =
      ((validate cfg rng).1.routes, (validate cfg rng).1, rng₂) :=
    validateRoutes_fixed _ _ _ _
      (fun r hrr => ⟨(hr r hrr).1, (hr r hrr).2.2, (hr r hrr).2.1⟩)
  rw [validate_eq ((validate cfg rng).1) rng₂]
  simp only [h1, h3, h2]

/-- Claim C7 (amended): after `validate()` every stored service name equals
its hyphen-to-underscore, lower-cased normal form, and `add_service`
likewise appends exactly one service whose stored name is in normal form
(and returns that name).  Service names are *not* required to be unique:
neither `add_service` nor `validate()` deduplicates. -/
theorem service_names_normalized (cfg : Config) (rng : Rng) (name : String)
    (url : Option String) :
    (∀ s ∈ (validate cfg rng).1.services, normalizeName s.name = s.name) ∧
    (∃ svc : Service,
        (add_service cfg name url rng).2.1.services = cfg.services ++ [svc] ∧
        normalizeName svc.name = svc.name ∧
        (add_service cfg name url rng).1 = svc.name) := by
  constructor
  · intro s hs
    exact ((validate_post cfg rng).1 s hs).2
  · unfold add_service
    by_cases h : name = ""
    · simp only [if_pos h]
      exact ⟨_, rfl, normalizeName_idem _, rfl⟩
    · simp only [if_neg h]
      exact ⟨_, rfl, normalizeName_idem _, rfl⟩

theorem service_names_normalized_witness :
    normalizeName "my_svc" = "my_svc" ∧
    (∃ svc : Service,
        (add_service emptyConfig "My-Svc" (some "http://u") rngZero).2.1.services =
          emptyConfig.services ++ [svc] ∧
        normalizeName svc.name = svc.name ∧
        (add_service emptyConfig "My-Svc" (some "http://u") rngZero).1 = svc.name) := by
  refine ⟨?_, (service_names_normalized emptyConfig rngZero "My-Svc" (some "http://u")).2⟩
  decide

/-- Claim C7 (counterexample to uniqueness): adding the same service name
twice and validating leaves two services that share the name `foo`, so
service names are not unique after `validate()`. -/
theorem service_name_uniqueness_counterexample :
    ((validate (add_service (add_service emptyConfig "foo" (some "http://u1") rngZero).2.1
        "foo" (some "http://u2") rngZero).2.1 rngZero).1.services.map Service.name =
      ["foo", "foo"]) ∧
    ¬ ((validate (add_service (add_service emptyConfig "foo" (some "http://u1") rngZero).2.1
        "foo" (some "http://u2") rngZero).2.1 rngZero).1.services.map Service.name).Nodup := by
  refine ⟨by decide, ?_⟩
  intro h
  have h2 : (["foo", "foo"] : List String).Nodup := by
    have e : (validate (add_service (add_service emptyConfig "foo" (some "http://u1") rngZero).2.1
        "foo" (some "http://u2") rngZero).2.1 rngZero).1.services.map Service.name =
        ["foo", "foo"] := by decide
    rw [e] at h
    exact h
  simp at h2

/-- Claim C10: `add_route` with an empty `service_name` on a configuration
with no services appends a route bound to a freshly synthesized
`default_service_{d}` name with `d` between 1000 and 9999 (four digits),
while the services list stays empty and every other field is untouched —
so the new route's reference resolves to no existing service until a later
`validate()`. -/
theorem add_route_empty_services (cfg : Config) (paths : List String)
    (name : Option String) (rng : Rng) (h : cfg.services = []) :
    (add_route cfg "" paths name rng).2.1.services = [] ∧
    (add_route cfg "" paths name rng).2.1.routes =
      cfg.routes ++ [⟨"default_service_" ++ natToString (1000 + rng 0 % 9000), paths,
                      (add_route cfg "" paths name rng).1⟩] ∧
    1000 ≤ 1000 + rng 0 % 9000 ∧ 1000 + rng 0 % 9000 ≤ 9999 ∧
    (add_route cfg "" paths name rng).2.1.plugins = cfg.plugins ∧
    (add_route cfg "" paths name rng).2.1.consumers = cfg.consumers ∧
    (add_route cfg "" paths name rng).2.1.auth_plugin = cfg.auth_plugin ∧
    (add_route cfg "" paths name rng).2.1.termination_note = cfg.termination_note ∧
    ¬ ("default_service_" ++ natToString (1000 + rng 0 % 9000)) ∈
        (add_route cfg "" paths name rng).2.1.services.map Service.name := by
  obtain ⟨svcs, routes, plugins, consumers, ap, tn⟩ := cfg
  simp only [] at h
  subst h
  have hmod : rng 0 % 9000 < 9000 := Nat.mod_lt _ (by omega)
  unfold add_route
  simp [normalizeName_default_service, randint1000to9999]
  omega

theorem add_route_empty_services_witness :
    (add_route emptyConfig "" ["/x"] (some "r") rngZero).2.1.services = [] ∧
    (add_route emptyConfig "" ["/x"] (some "r") rngZero).2.1.routes =
      emptyConfig.routes ++ [⟨"default_service_" ++ natToString (1000 + rngZero 0 % 9000), ["/x"],
                      (add_route emptyConfig "" ["/x"] (some "r") rngZero).1⟩] ∧
    1000 ≤ 1000 + rngZero 0 % 9000 ∧ 1000 + rngZero 0 % 9000 ≤ 9999 ∧
    (add_route emptyConfig "" ["/x"] (some "r") rngZero).2.1.plugins = emptyConfig.plugins ∧
    (add_route emptyConfig "" ["/x"] (some "r") rngZero).2.1.consumers = emptyConfig.consumers ∧
    (add_route emptyConfig "" ["/x"] (some "r") rngZero).2.1.auth_plugin = emptyConfig.auth_plugin ∧
    (add_route emptyConfig "" ["/x"] (some "r") rngZero).2.1.termination_note =
      emptyConfig.termination_note ∧
    ¬ ("default_service_" ++ natToString (1000 + rngZero 0 % 9000)) ∈
        (add_route emptyConfig "" ["/x"] (some "r") rngZero).2.1.services.map Service.name :=
  add_route_empty_services emptyConfig ["/x"] (some "r") rngZero rfl

/-- Claim C9: the transform with feature list `["key-auth", "rate-limiting"]`
on an empty configuration and empty specification yields exactly one
`key-auth` plugin with no config, one `rate-limiting` plugin with config
`{minute: 60, policy: "local"}`, one consumer `demo-user` with auth type
`key-auth`, and nothing else. -/
theorem feature_plugins_scenario :
    (generate_kong_config ⟨none⟩ emptyConfig ["key-auth", "rate-limiting"] rngZero).1.plugins =
      [⟨"key-auth", none⟩, ⟨"rate-limiting", some rateLimitingConfig⟩] ∧
    (generate_kong_config ⟨none⟩ emptyConfig ["key-auth", "rate-limiting"] rngZero).1.consumers =
      [⟨"demo-user", some "key-auth"⟩] ∧
    (generate_kong_config ⟨none⟩ emptyConfig ["key-auth", "rate-limiting"] rngZero).1.services = [] ∧
    (generate_kong_config ⟨none⟩ emptyConfig ["key-auth", "rate-limiting"] rngZero).1.routes = [] ∧
    rateLimitingConfig = JsonVal.obj [("minute", .num 60 0), ("policy", .str "local")] :=
  ⟨rfl, rfl, rfl, rfl, rfl⟩

/-! ## Claims about serialization round trips -/

theorem strListOfJson_map (l : List String) :
    strListOfJson (l.map JsonVal.str) = some l := by
  induction l with
  | nil => rfl
  | cons s rest ih => simp [strListOfJson, ih]

theorem serviceOfJson_serviceToJson (s : Service) :
    serviceOfJson (serviceToJson s) = some s := rfl

theorem routeOfJson_routeToJson (r : Route) :
    routeOfJson (routeToJson r) = some r := by
  simp [routeOfJson, routeToJson, strListOfJson_map]

theorem pluginOfJson_pluginToJson (p : Plugin) :
    pluginOfJson (pluginToJson p) = some p := by
  obtain ⟨n, c⟩ := p
  cases c <;> rfl

theorem consumerOfJson_consumerToJson (c : Consumer) :
    consumerOfJson (consumerToJson c) = some c := by
  obtain ⟨u, a⟩ := c
  cases a <;> rfl

theorem decodeList_map {f : JsonVal → Option α} {g : α → JsonVal}
    (hfg : ∀ a, f (g a) = some a) : ∀ l : List α, decodeList f (l.map g) = some l := by
  intro l
  induction l with
  | nil => rfl
  | cons a rest ih => simp [decodeList, hfg a, ih]

/-- Decoding a serialized configuration document recovers the
configuration. -/
theorem configOfJson_configDocument (cfg : Config) :
    configOfJson (configDocument cfg) = some cfg := by
  obtain ⟨svcs, routes, plugins, consumers, ap, tn⟩ := cfg
  have h1 := decodeList_map serviceOfJson_serviceToJson svcs
  have h2 := decodeList_map routeOfJson_routeToJson routes
  have h3 := decodeList_map pluginOfJson_pluginToJson plugins
  have h4 := decodeList_map consumerOfJson_consumerToJson consumers
  cases ap <;> cases tn <;>
    simp [configOfJson, configDocument, jsonLookup, lookupField,
      h1, h2, h3, h4, pluginOfJson_pluginToJson]

/-- Claim C5 (amended): for every configuration that `validate()` leaves
unchanged — in particular any configuration that has already been validated
(bulk load always validates) — serializing with `to_json` (resp. `to_yaml`)
and loading back with `load_from_json` (resp. `load_from_yaml`) yields a
configuration with identical `to_declarative_config()` output. -/
theorem roundtrip_validated (cfg : Config) (rng : Rng)
    (h : validate cfg rng = (cfg, rng)) :
    (load_from_json (to_json cfg) rng).map (fun p => to_declarative_config p.1) =
      some (to_declarative_config cfg) ∧
    (load_from_yaml (to_yaml cfg) rng).map (fun p => to_declarative_config p.1) =
      some (to_declarative_config cfg) := by
  unfold load_from_json load_from_yaml to_json to_yaml
  rw [configOfJson_configDocument]
  simp [h]

theorem roundtrip_validated_witness :
    validate emptyConfig rngZero = (emptyConfig, rngZero) ∧
    (load_from_json (to_json emptyConfig) rngZero).map
        (fun p => to_declarative_config p.1) =
      some (to_declarative_config emptyConfig) ∧
    (load_from_yaml (to_yaml emptyConfig) rngZero).map
        (fun p => to_declarative_config p.1) =
      some (to_declarative_config emptyConfig) :=
  ⟨rfl, roundtrip_validated emptyConfig rngZero rfl⟩


/-- Claim C5 (counterexample): for a configuration with a dangling route and
no services, the `validate()` run inside loading synthesizes a default
service, so the reloaded configuration's declarative export differs from the
original's (one service versus none). -/
theorem roundtrip_counterexample :
    (load_from_json (to_json cfgDangling) rngZero).map
        (fun p => to_declarative_config p.1) ≠
      some (to_declarative_config cfgDangling) ∧
    (load_from_yaml (to_yaml cfgDangling) rngZero).map
        (fun p => to_declarative_config p.1) ≠
      some (to_declarative_config cfgDangling) := by
  constructor
  · intro h
    have h2 := congrArg (Option.map declServicesLength) h
    rw [Option.map_map] at h2
    have h3 : (load_from_json (to_json cfgDangling) rngZero).map
        (declServicesLength ∘ fun p => to_declarative_config p.1) = some 1 := rfl
    rw [h3] at h2
    have h4 : Option.map declServicesLength
        (some (to_declarative_config cfgDangling)) = some 0 := rfl
    rw [h4] at h2
    simp at h2
  · intro h
    have h2 := congrArg (Option.map declServicesLength) h
    rw [Option.map_map] at h2
    have h3 : (load_from_yaml (to_yaml cfgDangling) rngZero).map
        (declServicesLength ∘ fun p => to_declarative_config p.1) = some 1 := rfl
    rw [h3] at h2
    have h4 : Option.map declServicesLength
        (some (to_declarative_config cfgDangling)) = some 0 := rfl
    rw [h4] at h2
    simp at h2

/-! ## Claims about specification extraction -/

/-- Claim C4 (amended): extraction is total and tries, in strict order with
first success winning: the whole response, then each fenced code block
(stripped), then the brace-delimited candidate (stripped), then the
deterministic template fallback with the `["basic"]` feature list.  The
fenced-block scenario of the claim holds when the whole response is not
itself valid JSON. -/
theorem extraction_fallback_chain :
    (∀ (r bt : String) (j : JsonVal), json_loads r = some j →
        extract_json_from_response r bt = j) ∧
    (∀ (r bt : String) (j : JsonVal), json_loads r = none →
        tryParseEach (fencedBlocks r) = some j →
        extract_json_from_response r bt = j) ∧
    (∀ (r bt : String) (j : JsonVal), json_loads r = none →
        tryParseEach (fencedBlocks r) = none →
        tryParseEach (braceMatches r) = some j →
        extract_json_from_response r bt = j) ∧
    (∀ (r bt : String), json_loads r = none →
        tryParseEach (fencedBlocks r) = none →
        tryParseEach (braceMatches r) = none →
        extract_json_from_response r bt = generate_from_templates bt ["basic"]) := by
  refine ⟨?_, ?_, ?_, ?_⟩
  · intro r bt j h
    unfold extract_json_from_response
    rw [h]
  · intro r bt j h1 h2
    unfold extract_json_from_response
    rw [h1, h2]
  · intro r bt j h1 h2 h3
    unfold extract_json_from_response
    rw [h1, h2, h3]
  · intro r bt h1 h2 h3
    unfold extract_json_from_response
    rw [h1, h2, h3]

theorem extraction_fallback_chain_witness :
    extract_json_from_response "7" "b" = JsonVal.num 7 0 ∧
    extract_json_from_response "x ```2``` y" "b" = JsonVal.num 2 0 ∧
    extract_json_from_response "x \x7b\"a\": 3\x7d" "b" =
      JsonVal.obj [("a", JsonVal.num 3 0)] ∧
    extract_json_from_response "no structured content" "b" =
      generate_from_templates "b" ["basic"] :=
  ⟨extraction_fallback_chain.1 "7" "b" (JsonVal.num 7 0) rfl,
   extraction_fallback_chain.2.1 "x ```2``` y" "b" (JsonVal.num 2 0) rfl rfl,
   extraction_fallback_chain.2.2.1 "x \x7b\"a\": 3\x7d" "b"
     (JsonVal.obj [("a", JsonVal.num 3 0)]) rfl rfl rfl,
   extraction_fallback_chain.2.2.2 "no structured content" "b" rfl rfl rfl⟩

/-- Claim C4 (counterexample): a response that is itself valid JSON *and*
contains a single fenced block with valid JSON returns the whole-response
parse (a string), not the block's parsed form — step (1) wins before the
fenced-block step. -/
theorem extraction_fenced_counterexample :
    fencedBlocks "\"```1```\"" = ["1"] ∧
    json_loads (pyStrip "1") = some (JsonVal.num 1 0) ∧
    extract_json_from_response "\"```1```\"" "b" = JsonVal.str "```1```" ∧
    JsonVal.str "```1```" ≠ JsonVal.num 1 0 :=
  ⟨rfl, rfl, rfl, fun h => by injection h⟩

/-! ## Lemmas: the deployment adapter -/

theorem postCheck_ok {pfx : String} {r : Response}
    (h : r.status = 200 ∨ r.status = 201) : postCheck pfx r = Except.ok r.json := by
  unfold postCheck
  rw [if_pos h]

theorem postCheck_err {pfx : String} {r : Response}
    (h : ¬(r.status = 200 ∨ r.status = 201)) :
    postCheck pfx r = Except.error (pfx ++ r.text) := by
  unfold postCheck
  rw [if_neg h]

/-- A phase loop that returns successfully issued exactly one call per list
element in order, returned the response bodies in order, and advanced the
call counter by the list length. -/
theorem deployList_ok {resp : Nat → Response} {pfx : String} {call : α → KongCall} :
    ∀ (l : List α) (i : Nat) (res : List JsonVal) (i' : Nat) (tr : List KongCall),
      deployList resp pfx call l i = (Except.ok res, i', tr) →
      tr = l.map call ∧ i' = i + l.length ∧
      res = (List.range l.length).map (fun t => (resp (i + t)).json) := by
  intro l
  induction l with
  | nil =>
    intro i res i' tr h
    simp only [deployList] at h
    injection h with h1 h23
    injection h23 with h2 h3
    injection h1 with h1
    subst h1 h2 h3
    simp
  | cons a rest ih =>
    intro i res i' tr h
    simp only [deployList] at h
    rcases hpc : postCheck pfx (resp i) with e | j <;> rw [hpc] at h
    · injection h with h1 _
      cases h1
    · rcases hrec : deployList resp pfx call rest (i + 1) with ⟨res1, i1, tr1⟩
      rw [hrec] at h
      simp only at h
      injection h with h1 h23
      injection h23 with h2 h3
      rcases res1 with e1 | rs
      · simp [Except.map] at h1
      · simp only [Except.map] at h1
        injection h1 with h1
        rcases ih (i + 1) rs i1 tr1 hrec with ⟨ih1, ih2, ih3⟩
        subst h1 h2 h3
        refine ⟨by rw [ih1]; rfl, by simp [ih2]; omega, ?_⟩
        rw [ih3]
        have hj : j = (resp i).json := by
          by_cases hs : (resp i).status = 200 ∨ (resp i).status = 201
          · rw [postCheck_ok hs] at hpc
            injection hpc with h'
            exact h'.symm
          · rw [postCheck_err hs] at hpc
            cases hpc
        rw [hj]
        simp only [List.length_cons, List.range_succ_eq_map, List.map_cons,
          List.map_map, Nat.add_zero]
        congr 1
        apply List.map_congr_left
        intro t _
        have harith : i + 1 + t = i + (t + 1) := by omega
        simp [Function.comp, harith]

theorem postCheck_ok_inv {pfx : String} {r : Response} {j : JsonVal}
    (h : postCheck pfx r = Except.ok j) : j = r.json := by
  by_cases hs : r.status = 200 ∨ r.status = 201
  · rw [postCheck_ok hs] at h
    injection h with h'
    exact h'.symm
  · rw [postCheck_err hs] at h
    cases h

/-- A successful consumer phase created every consumer in order with its
key-auth credential call immediately after it, collected the creation
responses in order, and implies every consumer had a supported auth type. -/
theorem deployConsumers_ok {resp : Nat → Response} :
    ∀ (cs : List Consumer) (i : Nat) (res : List JsonVal) (i' : Nat) (tr : List KongCall),
      deployConsumers resp cs i = (Except.ok res, i', tr) →
      tr = (cs.map consumerCallsFor).flatten ∧
      res = consumerResults resp cs i ∧
      ∀ c ∈ cs, supportedAuth c := by
  intro cs
  induction cs with
  | nil =>
    intro i res i' tr h
    simp only [deployConsumers] at h
    injection h with h1 h23
    injection h23 with h2 h3
    injection h1 with h1
    subst h1 h3
    simp [consumerResults]
  | cons c rest ih =>
    intro i res i' tr h
    simp only [deployConsumers] at h
    rcases hcc : create_consumer resp i with e | j <;> rw [hcc] at h
    · injection h with h1 _
      cases h1
    · have hj : j = (resp i).json := postCheck_ok_inv hcc
      rcases hat : c.auth_type with _ | a <;> rw [hat] at h
      · -- no auth_type
        rcases hrec : deployConsumers resp rest (i + 1) with ⟨res1, i1, tr1⟩
        rw [hrec] at h
        simp only at h
        injection h with h1 h23
        injection h23 with h2 h3
        rcases res1 with e1 | rs
        · simp [Except.map] at h1
        · simp only [Except.map] at h1
          injection h1 with h1
          rcases ih (i + 1) rs i1 tr1 hrec with ⟨ih1, ih2, ih3⟩
          subst h1 h2 h3
          refine ⟨?_, ?_, ?_⟩
          · rw [ih1]
            simp [consumerCallsFor, hat]
          · rw [ih2, hj]
            simp [consumerResults, authCallCount, hat]
          · intro x hx
            rcases List.mem_cons.mp hx with h1 | h1
            · subst h1
              left
              exact hat
            · exact ih3 x h1
      · simp only at h
        by_cases ha1 : a = "none"
        · rw [if_pos ha1] at h
          rcases hrec : deployConsumers resp rest (i + 1) with ⟨res1, i1, tr1⟩
          rw [hrec] at h
          simp only at h
          injection h with h1 h23
          injection h23 with h2 h3
          rcases res1 with e1 | rs
          · simp [Except.map] at h1
          · simp only [Except.map] at h1
            injection h1 with h1
            rcases ih (i + 1) rs i1 tr1 hrec with ⟨ih1, ih2, ih3⟩
            subst h1 h2 h3 ha1
            refine ⟨?_, ?_, ?_⟩
            · rw [ih1]
              simp [consumerCallsFor, hat]
            · rw [ih2, hj]
              simp [consumerResults, authCallCount, hat]
            · intro x hx
              rcases List.mem_cons.mp hx with h1 | h1
              · subst h1
                right
                left
                exact hat
              · exact ih3 x h1
        · rw [if_neg ha1] at h
          simp only [add_consumer_auth] at h
          by_cases ha2 : a = "key-auth"
          · rw [if_pos ha2] at h
            simp only at h
            rcases hpa : postCheck "Failed to add consumer auth: " (resp (i + 1)) with
              e2 | j2 <;> rw [hpa] at h
            · injection h with h1 _
              cases h1
            · rcases hrec : deployConsumers resp rest (i + 1 + 1) with ⟨res1, i1, tr1⟩
              rw [hrec] at h
              simp only at h
              injection h with h1 h23
              injection h23 with h2 h3
              rcases res1 with e1 | rs
              · simp [Except.map] at h1
              · simp only [Except.map] at h1
                injection h1 with h1
                rcases ih (i + 1 + 1) rs i1 tr1 hrec with ⟨ih1, ih2, ih3⟩
                subst h1 h2 h3 ha2
                refine ⟨?_, ?_, ?_⟩
                · rw [ih1]
                  simp [consumerCallsFor, hat]
                · rw [ih2, hj]
                  simp [consumerResults, authCallCount, hat]
                · intro x hx
                  rcases List.mem_cons.mp hx with h1 | h1
                  · subst h1
                    right
                    right
                    left
                    exact hat
                  · exact ih3 x h1
          · rw [if_neg ha2] at h
            by_cases ha3 : a = "jwt"
            · rw [if_pos ha3] at h
              simp only at h
              rcases hrec : deployConsumers resp rest (i + 1) with ⟨res1, i1, tr1⟩
              rw [hrec] at h
              simp only at h
              injection h with h1 h23
              injection h23 with h2 h3
              rcases res1 with e1 | rs
              · simp [Except.map] at h1
              · simp only [Except.map] at h1
                injection h1 with h1
                rcases ih (i + 1) rs i1 tr1 hrec with ⟨ih1, ih2, ih3⟩
                subst h1 h2 h3 ha3
                refine ⟨?_, ?_, ?_⟩
                · rw [ih1]
                  simp [consumerCallsFor, hat, ha2]
                · rw [ih2, hj]
                  simp [consumerResults, authCallCount, hat, ha2]
                · intro x hx
                  rcases List.mem_cons.mp hx with h1 | h1
                  · subst h1
                    right
                    right
                    right
                    exact hat
                  · exact ih3 x h1
            · rw [if_neg ha3] at h
              simp only at h
              injection h with h1 _
              cases h1

/-- Full characterization of a successful deploy: the trace is the phased
call sequence, each result list aligns with its configuration list, and
every consumer had a supported auth type. -/
theorem deploy_ok_spec (cfg : Config) (resp : Nat → Response)
    (results : DeployResults) (trace : List KongCall)
    (h : deploy_configuration resp cfg = (Except.ok results, trace)) :
    trace = serviceCalls cfg ++ routeCalls cfg ++ pluginCalls cfg ++
      (cfg.consumers.map consumerCallsFor).flatten ∧
    results.services = (List.range cfg.services.length).map (fun t => (resp t).json) ∧
    results.routes = (List.range cfg.routes.length).map
      (fun t => (resp (cfg.services.length + t)).json) ∧
    results.plugins = (List.range cfg.plugins.length).map
      (fun t => (resp (cfg.services.length + cfg.routes.length + t)).json) ∧
    results.consumers = consumerResults resp cfg.consumers
      (cfg.services.length + cfg.routes.length + cfg.plugins.length) ∧
    ∀ c ∈ cfg.consumers, supportedAuth c := by
  simp only [deploy_configuration] at h
  rcases h1 : deployList resp "Failed to create service: "
      (fun s : Service => KongCall.createService s.name s.url) cfg.services 0 with ⟨r1, i1, t1⟩
  rw [h1] at h
  rcases r1 with e | res1
  · simp only at h
    injection h with hA _
    cases hA
  · simp only at h
    rcases h2 : deployList resp "Failed to create route: "
        (fun r : Route => KongCall.createRoute r.service_name r.paths r.name)
        cfg.routes i1 with ⟨r2, i2, t2⟩
    rw [h2] at h
    rcases r2 with e | res2
    · simp only at h
      injection h with hA _
      cases hA
    · simp only at h
      rcases h3 : deployList resp "Failed to create plugin: "
          (fun p : Plugin => KongCall.createPlugin p.name p.config)
          cfg.plugins i2 with ⟨r3, i3, t3⟩
      rw [h3] at h
      rcases r3 with e | res3
      · simp only at h
        injection h with hA _
        cases hA
      · simp only at h
        rcases h4 : deployConsumers resp cfg.consumers i3 with ⟨r4, i4, t4⟩
        rw [h4] at h
        rcases r4 with e | res4
        · simp only at h
          injection h with hA _
          cases hA
        · simp only at h
          injection h with hA hB
          injection hA with hA
          rcases deployList_ok cfg.services 0 res1 i1 t1 h1 with ⟨s1, s2, s3⟩
          rcases deployList_ok cfg.routes i1 res2 i2 t2 h2 with ⟨u1, u2, u3⟩
          rcases deployList_ok cfg.plugins i2 res3 i3 t3 h3 with ⟨v1, v2, v3⟩
          rcases deployConsumers_ok cfg.consumers i3 res4 i4 t4 h4 with ⟨w1, w2, w3⟩
          subst hA hB
          refine ⟨?_, ?_, ?_, ?_, ?_, w3⟩
          · rw [s1, u1, v1, w1]
            simp [serviceCalls, routeCalls, pluginCalls]
          · simpa using s3
          · rw [s2] at u3
            simpa using u3
          · rw [u2, s2] at v3
            simpa using v3
          · rw [v2, u2, s2] at w2
            simpa using w2

/-- A phase loop aborts on the first failed status check: with successes
before position `k` (0-indexed) and a failure at `k`, it raises the phase
error carrying the failing response body after issuing exactly the first
`k + 1` calls. -/
theorem deployList_err {resp : Nat → Response} {pfx : String} {call : α → KongCall} :
    ∀ (l : List α) (i k : Nat), k < l.length →
      (∀ t, t < k → (resp (i + t)).status = 200 ∨ (resp (i + t)).status = 201) →
      ¬((resp (i + k)).status = 200 ∨ (resp (i + k)).status = 201) →
      deployList resp pfx call l i =
        (Except.error (pfx ++ (resp (i + k)).text), i + k + 1,
         (l.take (k + 1)).map call) := by
  intro l
  induction l with
  | nil =>
    intro i k hk
    simp at hk
  | cons a rest ih =>
    intro i k hk hpre hfail
    match k with
    | 0 =>
      simp only [deployList]
      rw [postCheck_err (by simpa using hfail)]
      simp
    | k + 1 =>
      have h0 : (resp i).status = 200 ∨ (resp i).status = 201 := by
        have h := hpre 0 (by omega)
        simpa using h
      have hpre' : ∀ t, t < k →
          (resp (i + 1 + t)).status = 200 ∨ (resp (i + 1 + t)).status = 201 := by
        intro t ht
        have h := hpre (t + 1) (by omega)
        have harith : i + (t + 1) = i + 1 + t := by omega
        rwa [harith] at h
      have hfail' : ¬((resp (i + 1 + k)).status = 200 ∨
          (resp (i + 1 + k)).status = 201) := by
        have harith : i + (k + 1) = i + 1 + k := by omega
        rwa [harith] at hfail
      have hk' : k < rest.length := by
        simpa using hk
      simp only [deployList]
      rw [postCheck_ok h0]
      simp only []
      rw [ih (i + 1) k hk' hpre' hfail']
      have e1 : i + 1 + k = i + (k + 1) := by omega
      rw [e1]
      simp [Except.map]

/-- A phase loop with successful responses at every position returns all
response bodies and the full call list. -/
theorem deployList_ok_fwd {resp : Nat → Response} {pfx : String} {call : α → KongCall} :
    ∀ (l : List α) (i : Nat),
      (∀ t, t < l.length → (resp (i + t)).status = 200 ∨ (resp (i + t)).status = 201) →
      deployList resp pfx call l i =
        (Except.ok ((List.range l.length).map fun t => (resp (i + t)).json),
         i + l.length, l.map call) := by
  intro l
  induction l with
  | nil =>
    intro i _
    simp [deployList]
  | cons a rest ih =>
    intro i hok
    have h0 : (resp i).status = 200 ∨ (resp i).status = 201 := by
      have h := hok 0 (by simp)
      simpa using h
    have hok' : ∀ t, t < rest.length →
        (resp (i + 1 + t)).status = 200 ∨ (resp (i + 1 + t)).status = 201 := by
      intro t ht
      have h := hok (t + 1) (by simp; omega)
      have harith : i + (t + 1) = i + 1 + t := by omega
      rwa [harith] at h
    simp only [deployList]
    rw [postCheck_ok h0]
    simp only []
    rw [ih (i + 1) hok']
    simp only [Except.map, List.length_cons, List.range_succ_eq_map,
      List.map_cons, List.map_map, Nat.add_zero]
    refine congrArg₂ Prod.mk ?_ (congrArg₂ Prod.mk (by omega) rfl)
    refine congrArg (fun l => Except.ok ((resp i).json :: l)) ?_
    apply List.map_congr_left
    intro t _
    have harith : i + 1 + t = i + (t + 1) := by omega
    simp [Function.comp, harith]

/-- The consumer phase aborts on the first failed status check within its
(possibly credential-interleaved) call plan: some error prefix is raised
with the failing response body after exactly the first `k + 1` planned
calls. -/
theorem deployConsumers_err {resp : Nat → Response} :
    ∀ (cs : List Consumer) (i k : Nat), k < (consumerPlan cs).length →
      (∀ t, t < k → (resp (i + t)).status = 200 ∨ (resp (i + t)).status = 201) →
      ¬((resp (i + k)).status = 200 ∨ (resp (i + k)).status = 201) →
      ∃ p : String,
        deployConsumers resp cs i =
          (Except.error (p ++ (resp (i + k)).text), i + k + 1,
           (consumerPlan cs).take (k + 1)) := by
  intro cs
  induction cs with
  | nil =>
    intro i k hk _ _
    simp [consumerPlan] at hk
  | cons c rest ih =>
    intro i k hk hpre hfail
    match k with
    | 0 =>
      refine ⟨"Failed to create consumer: ", ?_⟩
      simp only [deployConsumers, create_consumer]
      rw [postCheck_err (by simpa using hfail)]
      have hplan : (consumerPlan (c :: rest)).take 1 =
          [KongCall.createConsumer c.username] := by
        rw [consumerPlan]
        rfl
      rw [hplan]
      simp
    | k + 1 =>
      have h0 : (resp i).status = 200 ∨ (resp i).status = 201 := by
        have h := hpre 0 (by omega)
        simpa using h
      have hpre1 : ∀ t, t < k →
          (resp (i + 1 + t)).status = 200 ∨ (resp (i + 1 + t)).status = 201 := by
        intro t ht
        have h := hpre (t + 1) (by omega)
        have e : i + (t + 1) = i + 1 + t := by omega
        rwa [e] at h
      have hfail1 : ¬((resp (i + 1 + k)).status = 200 ∨
          (resp (i + 1 + k)).status = 201) := by
        have e : i + (k + 1) = i + 1 + k := by omega
        rwa [e] at hfail
      simp only [deployConsumers, create_consumer]
      rw [postCheck_ok h0]
      simp only []
      rcases hat : c.auth_type with _ | a
      · simp only []
        have hk' : k < (consumerPlan rest).length := by
          simp [consumerPlan, hat] at hk
          omega
        obtain ⟨p, hp⟩ := ih (i + 1) k hk' hpre1 hfail1
        refine ⟨p, ?_⟩
        rw [hp]
        have e1 : i + 1 + k = i + (k + 1) := by omega
        rw [e1]
        simp [consumerPlan, hat, Except.map]
      · simp only []
        by_cases ha1 : a = "none"
        · rw [if_pos ha1]
          have hk' : k < (consumerPlan rest).length := by
            simp [consumerPlan, hat, ha1] at hk
            omega
          obtain ⟨p, hp⟩ := ih (i + 1) k hk' hpre1 hfail1
          refine ⟨p, ?_⟩
          rw [hp]
          have e1 : i + 1 + k = i + (k + 1) := by omega
          rw [e1]
          simp [consumerPlan, hat, ha1, Except.map]
        · rw [if_neg ha1]
          simp only [add_consumer_auth]
          by_cases ha2 : a = "key-auth"
          · rw [if_pos ha2]
            simp only []
            match k with
            | 0 =>
              rw [postCheck_err (by simpa using hfail1)]
              simp only []
              refine ⟨"Failed to add consumer auth: ", ?_⟩
              simp [consumerPlan, hat, ha1, ha2]
            | k + 1 =>
              have h1 : (resp (i + 1)).status = 200 ∨ (resp (i + 1)).status = 201 := by
                have h := hpre 1 (by omega)
                simpa using h
              rw [postCheck_ok h1]
              simp only []
              have hpre2 : ∀ t, t < k →
                  (resp (i + 1 + 1 + t)).status = 200 ∨
                  (resp (i + 1 + 1 + t)).status = 201 := by
                intro t ht
                have h := hpre (t + 2) (by omega)
                have e : i + (t + 2) = i + 1 + 1 + t := by omega
                rwa [e] at h
              have hfail2 : ¬((resp (i + 1 + 1 + k)).status = 200 ∨
                  (resp (i + 1 + 1 + k)).status = 201) := by
                have e : i + (k + 1 + 1) = i + 1 + 1 + k := by omega
                rwa [e] at hfail
              have hk' : k < (consumerPlan rest).length := by
                simp [consumerPlan, hat, ha1, ha2] at hk
                omega
              obtain ⟨p, hp⟩ := ih (i + 1 + 1) k hk' hpre2 hfail2
              refine ⟨p, ?_⟩
              rw [hp]
              have e1 : i + 1 + 1 + k = i + (k + 1 + 1) := by omega
              rw [e1]
              simp [consumerPlan, hat, ha1, ha2, Except.map]
          · by_cases ha3 : a = "jwt"
            · rw [if_neg ha2, if_pos ha3]
              simp only []
              have hk' : k < (consumerPlan rest).length := by
                simp [consumerPlan, hat, ha1, ha2, ha3] at hk
                omega
              obtain ⟨p, hp⟩ := ih (i + 1) k hk' hpre1 hfail1
              refine ⟨p, ?_⟩
              rw [hp]
              have e1 : i + 1 + k = i + (k + 1) := by omega
              rw [e1]
              simp [consumerPlan, hat, ha1, ha2, ha3, Except.map]
            · exfalso
              simp [consumerPlan, hat, ha1, ha2, ha3] at hk

/-- Claim C3 (amended): if the schedule's statuses are accepted (200/201 —
the check the code performs, not general 2xx) on the first `k - 1` calls
and not accepted on the k-th, with `k` within the planned call sequence,
then the deploy issues exactly the first `k` planned calls — none after
the k-th — and raises an error carrying the k-th response body; there is
no retry, no rollback and no partial-result record. -/
theorem deploy_abort_first_failure (cfg : Config) (resp : Nat → Response) (k : Nat)
    (hk1 : 1 ≤ k) (hk2 : k ≤ (plannedCalls cfg).length)
    (hpre : ∀ t, t < k - 1 → (resp t).status = 200 ∨ (resp t).status = 201)
    (hfail : ¬((resp (k - 1)).status = 200 ∨ (resp (k - 1)).status = 201)) :
    ∃ p : String,
      deploy_configuration resp cfg =
        (Except.error (p ++ (resp (k - 1)).text), (plannedCalls cfg).take k) := by
  obtain ⟨k₀, rfl⟩ : ∃ k₀, k = k₀ + 1 := ⟨k - 1, by omega⟩
  simp only [Nat.add_sub_cancel] at hpre hfail ⊢
  have hlen : (plannedCalls cfg).length =
      cfg.services.length + cfg.routes.length + cfg.plugins.length +
        (consumerPlan cfg.consumers).length := by
    simp [plannedCalls, serviceCalls, routeCalls, pluginCalls]
    omega
  by_cases c1 : k₀ < cfg.services.length
  · have h1 := @deployList_err Service resp "Failed to create service: "
        (fun s : Service => KongCall.createService s.name s.url)
        cfg.services 0 k₀ c1
        (by intro t ht; simpa using hpre t ht) (by simpa using hfail)
    refine ⟨"Failed to create service: ", ?_⟩
    simp only [deploy_configuration]
    rw [h1]
    simp only [Nat.zero_add]
    have htr : (plannedCalls cfg).take (k₀ + 1) =
        (cfg.services.take (k₀ + 1)).map
          (fun s : Service => KongCall.createService s.name s.url) := by
      rw [plannedCalls]
      rw [List.take_append_of_le_length
        (by simp [serviceCalls, routeCalls, pluginCalls]; omega)]
      rw [List.take_append_of_le_length (by simp [serviceCalls, routeCalls]; omega)]
      rw [List.take_append_of_le_length (by simp [serviceCalls]; omega)]
      rw [serviceCalls, List.map_take]
    rw [htr]
  · by_cases c2 : k₀ < cfg.services.length + cfg.routes.length
    · have hsvcok := @deployList_ok_fwd Service resp "Failed to create service: "
          (fun s : Service => KongCall.createService s.name s.url)
          cfg.services 0
          (by intro t ht; simpa using hpre t (by omega))
      have hpre2 : ∀ t, t < k₀ - cfg.services.length →
          (resp (cfg.services.length + t)).status = 200 ∨
          (resp (cfg.services.length + t)).status = 201 := by
        intro t ht
        exact hpre (cfg.services.length + t) (by omega)
      have hfail2 : ¬((resp (cfg.services.length + (k₀ - cfg.services.length))).status = 200 ∨
          (resp (cfg.services.length + (k₀ - cfg.services.length))).status = 201) := by
        have e : cfg.services.length + (k₀ - cfg.services.length) = k₀ := by omega
        rwa [e]
      have h2 := @deployList_err Route resp "Failed to create route: "
          (fun r : Route => KongCall.createRoute r.service_name r.paths r.name)
          cfg.routes cfg.services.length (k₀ - cfg.services.length)
          (by omega) hpre2 hfail2
      refine ⟨"Failed to create route: ", ?_⟩
      simp only [deploy_configuration]
      rw [hsvcok]
      simp only [Nat.zero_add]
      rw [h2]
      simp only []
      have e1 : cfg.services.length + (k₀ - cfg.services.length) = k₀ := by omega
      rw [e1]
      have htr : (plannedCalls cfg).take (k₀ + 1) =
          (cfg.services.map fun s : Service => KongCall.createService s.name s.url) ++
            (cfg.routes.take (k₀ - cfg.services.length + 1)).map
              (fun r : Route => KongCall.createRoute r.service_name r.paths r.name) := by
        rw [plannedCalls, List.append_assoc, List.append_assoc]
        rw [serviceCalls]
        have e2 : k₀ + 1 =
            (cfg.services.map fun s : Service => KongCall.createService s.name s.url).length +
              (k₀ - cfg.services.length + 1) := by
          simp
          omega
        rw [e2, List.take_append]
        rw [List.take_append_of_le_length (by simp [routeCalls]; omega)]
        rw [routeCalls, List.map_take]
      rw [htr]
    · by_cases c3 : k₀ < cfg.services.length + cfg.routes.length + cfg.plugins.length
      · have hsvcok := @deployList_ok_fwd Service resp "Failed to create service: "
            (fun s : Service => KongCall.createService s.name s.url)
            cfg.services 0
            (by intro t ht; simpa using hpre t (by omega))
        have hrtok := @deployList_ok_fwd Route resp "Failed to create route: "
            (fun r : Route => KongCall.createRoute r.service_name r.paths r.name)
            cfg.routes cfg.services.length
            (by intro t ht; exact hpre (cfg.services.length + t) (by omega))
        have hpre3 : ∀ t, t < k₀ - (cfg.services.length + cfg.routes.length) →
            (resp (cfg.services.length + cfg.routes.length + t)).status = 200 ∨
            (resp (cfg.services.length + cfg.routes.length + t)).status = 201 := by
          intro t ht
          exact hpre (cfg.services.length + cfg.routes.length + t) (by omega)
        have hfail3 : ¬((resp (cfg.services.length + cfg.routes.length +
            (k₀ - (cfg.services.length + cfg.routes.length)))).status = 200 ∨
            (resp (cfg.services.length + cfg.routes.length +
            (k₀ - (cfg.services.length + cfg.routes.length)))).status = 201) := by
          have e : cfg.services.length + cfg.routes.length +
              (k₀ - (cfg.services.length + cfg.routes.length)) = k₀ := by omega
          rwa [e]
        have h3 := @deployList_err Plugin resp "Failed to create plugin: "
            (fun p : Plugin => KongCall.createPlugin p.name p.config)
            cfg.plugins (cfg.services.length + cfg.routes.length)
            (k₀ - (cfg.services.length + cfg.routes.length))
            (by omega) hpre3 hfail3
        refine ⟨"Failed to create plugin: ", ?_⟩
        simp only [deploy_configuration]
        rw [hsvcok]
        simp only [Nat.zero_add]
        rw [hrtok]
        simp only []
        rw [h3]
        simp only []
        have e1 : cfg.services.length + cfg.routes.length +
            (k₀ - (cfg.services.length + cfg.routes.length)) = k₀ := by omega
        rw [e1]
        have htr : (plannedCalls cfg).take (k₀ + 1) =
            (cfg.services.map fun s : Service => KongCall.createService s.name s.url) ++
              ((cfg.routes.map fun r : Route =>
                  KongCall.createRoute r.service_name r.paths r.name) ++
                (cfg.plugins.take (k₀ - (cfg.services.length + cfg.routes.length) + 1)).map
                  (fun p : Plugin => KongCall.createPlugin p.name p.config)) := by
          rw [plannedCalls, List.append_assoc, List.append_assoc]
          rw [serviceCalls, routeCalls]
          have e2 : k₀ + 1 =
              (cfg.services.map fun s : Service => KongCall.createService s.name s.url).length +
                ((cfg.routes.map fun r : Route =>
                    KongCall.createRoute r.service_name r.paths r.name).length +
                  (k₀ - (cfg.services.length + cfg.routes.length) + 1)) := by
            simp
            omega
          rw [e2, List.take_append, List.take_append]
          rw [List.take_append_of_le_length (by simp [pluginCalls]; omega)]
          rw [pluginCalls, List.map_take]
        rw [htr]
      · have hsvcok := @deployList_ok_fwd Service resp "Failed to create service: "
            (fun s : Service => KongCall.createService s.name s.url)
            cfg.services 0
            (by intro t ht; simpa using hpre t (by omega))
        have hrtok := @deployList_ok_fwd Route resp "Failed to create route: "
            (fun r : Route => KongCall.createRoute r.service_name r.paths r.name)
            cfg.routes cfg.services.length
            (by intro t ht; exact hpre (cfg.services.length + t) (by omega))
        have hplok := @deployList_ok_fwd Plugin resp "Failed to create plugin: "
            (fun p : Plugin => KongCall.createPlugin p.name p.config)
            cfg.plugins (cfg.services.length + cfg.routes.length)
            (by intro t ht;
                exact hpre (cfg.services.length + cfg.routes.length + t) (by omega))
        have hpre4 : ∀ t, t < k₀ -
            (cfg.services.length + cfg.routes.length + cfg.plugins.length) →
            (resp (cfg.services.length + cfg.routes.length + cfg.plugins.length + t)).status
              = 200 ∨
            (resp (cfg.services.length + cfg.routes.length + cfg.plugins.length + t)).status
              = 201 := by
          intro t ht
          exact hpre (cfg.services.length + cfg.routes.length + cfg.plugins.length + t)
            (by omega)
        have hfail4 : ¬((resp (cfg.services.length + cfg.routes.length + cfg.plugins.length +
            (k₀ - (cfg.services.length + cfg.routes.length + cfg.plugins.length)))).status
              = 200 ∨
            (resp (cfg.services.length + cfg.routes.length + cfg.plugins.length +
            (k₀ - (cfg.services.length + cfg.routes.length + cfg.plugins.length)))).status
              = 201) := by
          have e : cfg.services.length + cfg.routes.length + cfg.plugins.length +
              (k₀ - (cfg.services.length + cfg.routes.length + cfg.plugins.length)) = k₀ := by
            omega
          rwa [e]
        obtain ⟨p, h4⟩ := @deployConsumers_err resp cfg.consumers
            (cfg.services.length + cfg.routes.length + cfg.plugins.length)
            (k₀ - (cfg.services.length + cfg.routes.length + cfg.plugins.length))
            (by omega) hpre4 hfail4
        refine ⟨p, ?_⟩
        simp only [deploy_configuration]
        rw [hsvcok]
        simp only [Nat.zero_add]
        rw [hrtok]
        simp only []
        rw [hplok]
        simp only []
        rw [h4]
        simp only []
        have e1 : cfg.services.length + cfg.routes.length + cfg.plugins.length +
            (k₀ - (cfg.services.length + cfg.routes.length + cfg.plugins.length)) = k₀ := by
          omega
        rw [e1]
        have htr : (plannedCalls cfg).take (k₀ + 1) =
            (cfg.services.map fun s : Service => KongCall.createService s.name s.url) ++
              ((cfg.routes.map fun r : Route =>
                  KongCall.createRoute r.service_name r.paths r.name) ++
                ((cfg.plugins.map fun p : Plugin => KongCall.createPlugin p.name p.config) ++
                  (consumerPlan cfg.consumers).take
                    (k₀ - (cfg.services.length + cfg.routes.length + cfg.plugins.length)
                      + 1))) := by
          rw [plannedCalls, List.append_assoc, List.append_assoc]
          rw [serviceCalls, routeCalls, pluginCalls]
          have e2 : k₀ + 1 =
              (cfg.services.map fun s : Service => KongCall.createService s.name s.url).length +
                ((cfg.routes.map fun r : Route =>
                    KongCall.createRoute r.service_name r.paths r.name).length +
                  ((cfg.plugins.map fun p : Plugin =>
                      KongCall.createPlugin p.name p.config).length +
                    (k₀ - (cfg.services.length + cfg.routes.length + cfg.plugins.length)
                      + 1))) := by
            simp
            omega
          rw [e2, List.take_append, List.take_append, List.take_append]
        rw [htr]

/-- Claim C2: a deploy that returns its results record issued its calls in
the fixed phase order — all service creations (in services-list order),
then all route creations, then all plugin creations, then the consumer
phase — and each result list holds the remote responses in the same order
as the corresponding configuration list. -/
theorem deploy_fixed_phases (cfg : Config) (resp : Nat → Response)
    (results : DeployResults) (trace : List KongCall)
    (h : deploy_configuration resp cfg = (Except.ok results, trace)) :
    trace = serviceCalls cfg ++ routeCalls cfg ++ pluginCalls cfg ++
      (cfg.consumers.map consumerCallsFor).flatten ∧
    results.services = (List.range cfg.services.length).map (fun t => (resp t).json) ∧
    results.routes = (List.range cfg.routes.length).map
      (fun t => (resp (cfg.services.length + t)).json) ∧
    results.plugins = (List.range cfg.plugins.length).map
      (fun t => (resp (cfg.services.length + cfg.routes.length + t)).json) ∧
    results.consumers = consumerResults resp cfg.consumers
      (cfg.services.length + cfg.routes.length + cfg.plugins.length) := by
  obtain ⟨h1, h2, h3, h4, h5, _⟩ := deploy_ok_spec cfg resp results trace h
  exact ⟨h1, h2, h3, h4, h5⟩


theorem deploy_fixed_phases_witness :
    ([KongCall.createService "s" "u", KongCall.createRoute "s" ["/p"] "r",
      KongCall.createPlugin "cors" none, KongCall.createConsumer "d",
      KongCall.addConsumerAuth "d" "key-auth"] : List KongCall) =
      serviceCalls cfgDemo ++ routeCalls cfgDemo ++ pluginCalls cfgDemo ++
        (cfgDemo.consumers.map consumerCallsFor).flatten ∧
    (⟨[JsonVal.num 0 0], [JsonVal.num 1 0], [JsonVal.num 2 0], [JsonVal.num 3 0]⟩ :
        DeployResults).services =
      (List.range cfgDemo.services.length).map (fun t => (respOk201 t).json) ∧
    (⟨[JsonVal.num 0 0], [JsonVal.num 1 0], [JsonVal.num 2 0], [JsonVal.num 3 0]⟩ :
        DeployResults).routes =
      (List.range cfgDemo.routes.length).map
        (fun t => (respOk201 (cfgDemo.services.length + t)).json) ∧
    (⟨[JsonVal.num 0 0], [JsonVal.num 1 0], [JsonVal.num 2 0], [JsonVal.num 3 0]⟩ :
        DeployResults).plugins =
      (List.range cfgDemo.plugins.length).map
        (fun t => (respOk201 (cfgDemo.services.length + cfgDemo.routes.length + t)).json) ∧
    (⟨[JsonVal.num 0 0], [JsonVal.num 1 0], [JsonVal.num 2 0], [JsonVal.num 3 0]⟩ :
        DeployResults).consumers =
      consumerResults respOk201 cfgDemo.consumers
        (cfgDemo.services.length + cfgDemo.routes.length + cfgDemo.plugins.length) :=
  deploy_fixed_phases cfgDemo respOk201
    ⟨[JsonVal.num 0 0], [JsonVal.num 1 0], [JsonVal.num 2 0], [JsonVal.num 3 0]⟩
    [KongCall.createService "s" "u", KongCall.createRoute "s" ["/p"] "r",
     KongCall.createPlugin "cors" none, KongCall.createConsumer "d",
     KongCall.addConsumerAuth "d" "key-auth"] rfl


theorem deploy_abort_first_failure_witness :
    ∃ p : String,
      deploy_configuration resp201then500 cfgTwoServices =
        (Except.error (p ++ (resp201then500 (2 - 1)).text),
         (plannedCalls cfgTwoServices).take 2) :=
  deploy_abort_first_failure cfgTwoServices resp201then500 2 (by omega)
    (by have h : (plannedCalls cfgTwoServices).length = 2 := rfl
        omega)
    (by intro t ht
        have ht0 : t = 0 := by omega
        subst ht0
        right
        rfl)
    (by intro hc
        rcases hc with hc | hc <;> simp [resp201then500] at hc)


/-- Claim C3 (counterexample): with responses 204 then 500, the first
non-2xx status sits at position k = 2 of the planned sequence (204 is 2xx),
so the claim predicts two issued calls; but the code treats any status
other than 200/201 as failure, aborts on the 204 at the first call, and
issues exactly one call. -/
theorem deploy_abort_status_counterexample :
    status2xx (resp204then500 0).status ∧
    ¬ status2xx (resp204then500 1).status ∧
    (plannedCalls cfgTwoServices).length = 2 ∧
    deploy_configuration resp204then500 cfgTwoServices =
      (Except.error ("Failed to create service: " ++ (resp204then500 0).text),
       [KongCall.createService "a" "ua"]) ∧
    (deploy_configuration resp204then500 cfgTwoServices).2.length = 1 ∧
    (1 : Nat) ≠ 2 := by
  refine ⟨?_, ?_, rfl, rfl, rfl, by omega⟩
  · constructor <;> decide
  · intro hc
    rcases hc with ⟨h1, h2⟩
    simp [resp204then500] at h1 h2

/-- Claim C8 (amended): under a successful deploy every consumer had a
supported auth type, every consumer is created in list order, and a
credential-attachment call immediately follows a consumer's creation
exactly when its auth type is `key-auth`; `jwt` issues no attachment call
(stubbed with `pass`), and any other auth type besides `none` raises
`ValueError("Unsupported auth type: ...")`, aborting the deploy. -/
theorem consumer_auth_attachment (cfg : Config) (resp : Nat → Response)
    (results : DeployResults) (trace : List KongCall)
    (h : deploy_configuration resp cfg = (Except.ok results, trace)) :
    (∀ c ∈ cfg.consumers, supportedAuth c) ∧
    trace = serviceCalls cfg ++ routeCalls cfg ++ pluginCalls cfg ++
      (cfg.consumers.map consumerCallsFor).flatten ∧
    ∀ c : Consumer, consumerCallsFor c =
      KongCall.createConsumer c.username ::
        (if c.auth_type = some "key-auth"
         then [KongCall.addConsumerAuth c.username "key-auth"] else []) := by
  obtain ⟨h1, _, _, _, _, h6⟩ := deploy_ok_spec cfg resp results trace h
  refine ⟨h6, h1, ?_⟩
  intro c
  rcases hat : c.auth_type with _ | a
  · simp [consumerCallsFor, hat]
  · by_cases ha : a = "key-auth"
    · subst ha
      simp [consumerCallsFor, hat]
    · simp [consumerCallsFor, hat, ha]

theorem consumer_auth_attachment_witness :
    (∀ c ∈ cfgDemo.consumers, supportedAuth c) ∧
    ([KongCall.createService "s" "u", KongCall.createRoute "s" ["/p"] "r",
      KongCall.createPlugin "cors" none, KongCall.createConsumer "d",
      KongCall.addConsumerAuth "d" "key-auth"] : List KongCall) =
      serviceCalls cfgDemo ++ routeCalls cfgDemo ++ pluginCalls cfgDemo ++
        (cfgDemo.consumers.map consumerCallsFor).flatten ∧
    ∀ c : Consumer, consumerCallsFor c =
      KongCall.createConsumer c.username ::
        (if c.auth_type = some "key-auth"
         then [KongCall.addConsumerAuth c.username "key-auth"] else []) :=
  consumer_auth_attachment cfgDemo respOk201
    ⟨[JsonVal.num 0 0], [JsonVal.num 1 0], [JsonVal.num 2 0], [JsonVal.num 3 0]⟩
    [KongCall.createService "s" "u", KongCall.createRoute "s" ["/p"] "r",
     KongCall.createPlugin "cors" none, KongCall.createConsumer "d",
     KongCall.addConsumerAuth "d" "key-auth"] rfl


/-- Claim C8 (counterexample): a consumer with auth type `jwt` (present and
not `none`) is created but no credential-attachment call follows — the
`jwt` branch is a silent stub; and a consumer with auth type `basic-auth`
makes the deploy raise `Unsupported auth type` instead of attaching
credentials. -/
theorem consumer_auth_counterexample :
    deploy_configuration respOk201 cfgJwtConsumer =
      (Except.ok ⟨[], [], [], [JsonVal.num 0 0]⟩, [KongCall.createConsumer "u"]) ∧
    KongCall.addConsumerAuth "u" "jwt" ∉
      (deploy_configuration respOk201 cfgJwtConsumer).2 ∧
    deploy_configuration respOk201 cfgBasicConsumer =
      (Except.error "Unsupported auth type: basic-auth",
       [KongCall.createConsumer "u"]) := by
  refine ⟨rfl, ?_, rfl⟩
  intro hmem
  have he : (deploy_configuration respOk201 cfgJwtConsumer).2 =
      [KongCall.createConsumer "u"] := rfl
  rw [he] at hmem
  simp at hmem
